import Mathlib

/-!
# ASCA dashboard: the backend gateway (`src/api-client.js`)

A shallow embedding of `ASCAApiClient` and of the functions around it.

* JavaScript data is `Json`; a JavaScript object is the list of its own
  properties in enumeration order (`JsObject`), with property read, property
  write and object spread defined on it.
* An `async` function is a function from the log of observable events so far
  to its outcome (`Except JsError α`: resolved or rejected) and the new log.
  The log records every call of `fetch`, every call of `response.json()` and
  every `console.error`.
* The network is a parameter: `Network.fetch` says, for the history so far, the
  URL and the config object, whether `fetch` rejects or which response it
  resolves to.
-/

namespace ASCA

/-! ## JavaScript values -/

/-- Whether a character is a decimal digit. -/
def isDigit (c : Char) : Bool := decide (48 ≤ c.toNat) && decide (c.toNat ≤ 57)

/-- Whether a character can stand in the text of a number: a digit, a sign, the
decimal point or the letter `e`. -/
def isNumberChar (c : Char) : Bool :=
  isDigit c || decide (c = '-') || decide (c = '+') || decide (c = '.') || decide (c = 'e')

/-- The number written by a list of decimal digits. -/
def digitsValue (ds : List Char) : Nat :=
  ds.foldl (fun acc c => 10 * acc + (c.toNat - 48)) 0

/-- The numeral of a natural number: digits, the first not 0 unless it is the
only one. -/
def isNumeral : List Char → Bool
  | [] => false
  | [c] => isDigit c
  | c :: d :: rest => isDigit c && decide (c ≠ '0') && (d :: rest).all isDigit

/-- The digits behind a decimal point: at least one, the last not 0. -/
def isFraction (cs : List Char) : Bool :=
  cs.all isDigit &&
    (match cs.getLast? with
    | some c => decide (c ≠ '0')
    | none => false)

/-- The number of zeros a text begins with. -/
def leadingZeros : List Char → Nat
  | [] => 0
  | c :: cs => if c = '0' then leadingZeros cs + 1 else 0

/-- A number written without an exponent, as `Number.prototype.toString` writes
a magnitude from 1e-6 up to, not including, 1e21: a numeral of at most 21
digits, which a fraction may follow, or `0.` and a fraction with at most five
leading zeros. -/
def isPlainNumber (cs : List Char) : Bool :=
  match cs.span (fun c => decide (c ≠ '.')) with
  | (whole, []) => isNumeral whole && decide (whole.length ≤ 21)
  | (whole, _ :: fraction) =>
    isFraction fraction &&
      (if whole = ['0'] then decide (leadingZeros fraction ≤ 5)
      else isNumeral whole && decide (whole.length ≤ 21))

/-- The part of a number with an exponent in front of the `e`: one digit that
is not 0, which a fraction may follow. -/
def isMantissa : List Char → Bool
  | [] => false
  | [d] => isDigit d && decide (d ≠ '0')
  | d :: p :: fraction => isDigit d && decide (d ≠ '0') && decide (p = '.') && isFraction fraction

/-- The part of a number with an exponent behind the `e`: `+` and a numeral of
at least 21, or `-` and a numeral of at least 7. -/
def isExponent : List Char → Bool
  | [] => false
  | sign :: ds =>
    isNumeral ds &&
      ((decide (sign = '+') && decide (21 ≤ digitsValue ds)) ||
        (decide (sign = '-') && decide (7 ≤ digitsValue ds)))

/-- A number written with an exponent, as `Number.prototype.toString` writes a
magnitude from 1e21 or below 1e-6. -/
def isExponentNumber (cs : List Char) : Bool :=
  match cs.span (fun c => decide (c ≠ 'e')) with
  | (_, []) => false
  | (mantissa, _ :: exponent) => isMantissa mantissa && isExponent exponent

/-- Whether a text is the decimal text of a finite number as
`Number.prototype.toString`, and with it `JSON.stringify`, writes one: an
optional minus sign (never before a lone `0`), then a number without or with an
exponent. -/
def isNumberText (cs : List Char) : Bool :=
  cs.all isNumberChar &&
    (match cs with
    | [] => false
    | c :: rest =>
      if c = '-' then
        (isPlainNumber rest || isExponentNumber rest) && decide (rest ≠ ['0'])
      else isPlainNumber (c :: rest) || isExponentNumber (c :: rest))

/-- A finite JavaScript number, given by the decimal text that
`Number.prototype.toString` writes for it (`3`, `-12`, `7.5`, `1e+21`,
`1.5e-7`); different finite numbers have different texts, `-0` being written
like `0`. Every finite double-precision number has such a text; a text of this
form that no double-precision number has is not excluded. -/
structure JsNumber where
  text : List Char
  canonical : isNumberText text = true

/-- The number with the given text. -/
def JsNumber.ofString (s : String) (h : isNumberText s.toList = true) : JsNumber :=
  { text := s.toList, canonical := h }

/-- JSON data: the JavaScript values that `JSON.stringify` writes and a JSON
decoder reads: `null`, the booleans, the finite numbers, the strings (sequences
of Unicode characters), and the arrays and objects of such values. -/
inductive Json where
  | null : Json
  | bool (b : Bool) : Json
  | num (x : JsNumber) : Json
  | str (s : String) : Json
  | arr (xs : List Json) : Json
  | obj (kvs : List (String × Json)) : Json

instance : Inhabited Json := ⟨Json.null⟩

/-- A JavaScript object: its own enumerable properties, key and value, in the
order in which JavaScript enumerates them. -/
abbrev JsObject := List (String × Json)

/-- Property read `o[k]`; `none` is JavaScript's `undefined`. -/
def JsObject.get : JsObject → String → Option Json
  | [], _ => none
  | (k', v) :: rest, k => if k' = k then some v else JsObject.get rest k

/-- Property write `o[k] = v`: an existing key keeps its place and takes the
new value, a new key goes to the end. -/
def JsObject.set : JsObject → String → Json → JsObject
  | [], k, v => [(k, v)]
  | (k', v') :: rest, k, v =>
    if k' = k then (k, v) :: rest else (k', v') :: JsObject.set rest k v

/-- The keys of an object, in enumeration order. -/
def JsObject.keys (o : JsObject) : List String := o.map Prod.fst

/-- Spread inside an object literal, `{ ...target, ...source }` where `target`
holds the properties written so far: every property of `source` is written to
`target` in order. -/
def JsObject.spread (target source : JsObject) : JsObject :=
  source.foldl (fun acc kv => JsObject.set acc kv.1 kv.2) target

/-- The entries `(0, x0), (1, x1), ...` of an array, as an object sees them. -/
def indexed : Nat → List Json → JsObject
  | _, [] => []
  | i, x :: xs => (toString i, x) :: indexed (i + 1) xs

/-- The own enumerable properties that `...value` copies: those of an object,
the indexed elements of an array, the indexed characters of a string, and
nothing for `undefined`, `null`, a boolean or a number. -/
def spreadSource : Option Json → JsObject
  | some (Json.obj kvs) => kvs
  | some (Json.arr xs) => indexed 0 xs
  | some (Json.str s) => indexed 0 (s.toList.map (fun c => Json.str (String.mk [c])))
  | _ => []

/-- A JavaScript error object: its `name` and its `message`. -/
structure JsError where
  name : String
  message : String
  deriving DecidableEq, Repr

/-- The error built by `new Error(message)`. -/
def JsError.new (message : String) : JsError := { name := "Error", message := message }

/-! ## JSON text: `JSON.stringify` and a decoder -/

/-- The lower-case hexadecimal digit of a number below 16. -/
def hexDigit (n : Nat) : Char :=
  if n < 10 then Char.ofNat (48 + n) else Char.ofNat (87 + n)

/-- How `JSON.stringify` writes one character of a string: the quote and the
backslash are escaped, the control characters below U+0020 are written with
their short escape or as `\u00xx`, every other character is written as it is. -/
def quoteChar (c : Char) : List Char :=
  if c = '"' then ['\\', '"']
  else if c = '\\' then ['\\', '\\']
  else if c.toNat = 8 then ['\\', 'b']
  else if c.toNat = 9 then ['\\', 't']
  else if c.toNat = 10 then ['\\', 'n']
  else if c.toNat = 12 then ['\\', 'f']
  else if c.toNat = 13 then ['\\', 'r']
  else if c.toNat < 32 then
    ['\\', 'u', '0', '0', hexDigit (c.toNat / 16), hexDigit (c.toNat % 16)]
  else [c]

/-- The characters of a string after the opening quote, closing quote included. -/
def quoteChars : List Char → List Char
  | [] => ['"']
  | c :: cs => quoteChar c ++ quoteChars cs

/-- A string as JSON text. -/
def quote (s : String) : List Char := '"' :: quoteChars s.toList

mutual
/-- The text `JSON.stringify(v)` (no indentation), as characters. -/
def stringifyValue : Json → List Char
  | Json.null => ['n', 'u', 'l', 'l']
  | Json.bool true => ['t', 'r', 'u', 'e']
  | Json.bool false => ['f', 'a', 'l', 's', 'e']
  | Json.num x => x.text
  | Json.str s => quote s
  | Json.arr [] => ['[', ']']
  | Json.arr (x :: xs) => '[' :: (stringifyValue x ++ stringifyTail xs)
  | Json.obj [] => ['{', '}']
  | Json.obj ((k, v) :: kvs) =>
    '{' :: (quote k ++ ':' :: (stringifyValue v ++ stringifyMemberTail kvs))
/-- The elements of an array after the first, each behind a comma, then `]`. -/
def stringifyTail : List Json → List Char
  | [] => [']']
  | x :: xs => ',' :: (stringifyValue x ++ stringifyTail xs)
/-- The members of an object after the first, each behind a comma, then `}`. -/
def stringifyMemberTail : List (String × Json) → List Char
  | [] => ['}']
  | (k, v) :: kvs => ',' :: (quote k ++ ':' :: (stringifyValue v ++ stringifyMemberTail kvs))
end

/-- The built-in `JSON.stringify(v)` on JSON data. -/
def JSON.stringify (v : Json) : String := String.mk (stringifyValue v)

/-- The value of a hexadecimal digit. -/
def hexVal (c : Char) : Option Nat :=
  if 48 ≤ c.toNat ∧ c.toNat ≤ 57 then some (c.toNat - 48)
  else if 97 ≤ c.toNat ∧ c.toNat ≤ 102 then some (c.toNat - 87)
  else if 65 ≤ c.toNat ∧ c.toNat ≤ 70 then some (c.toNat - 55)
  else none

/-- The character of a `\uXXXX` escape; a surrogate half is not decoded. -/
def hex4 (a b c d : Char) : Option Char :=
  match hexVal a, hexVal b, hexVal c, hexVal d with
  | some x, some y, some z, some w =>
    let n := 4096 * x + 256 * y + 16 * z + w
    if 55296 ≤ n ∧ n ≤ 57343 then none else some (Char.ofNat n)
  | _, _, _, _ => none

/-- The character of a one-letter escape `\e`. -/
def unescape (e : Char) : Option Char :=
  if e = '"' then some '"'
  else if e = '\\' then some '\\'
  else if e = '/' then some '/'
  else if e = 'b' then some (Char.ofNat 8)
  else if e = 't' then some (Char.ofNat 9)
  else if e = 'n' then some (Char.ofNat 10)
  else if e = 'f' then some (Char.ofNat 12)
  else if e = 'r' then some (Char.ofNat 13)
  else none

/-- Reads a string after its opening quote, up to and including the closing
quote: the characters of the string and the text behind it. -/
def parseStringBody : List Char → Option (List Char × List Char)
  | [] => none
  | c :: cs =>
    if c = '"' then some ([], cs)
    else if c = '\\' then
      match cs with
      | [] => none
      | e :: cs1 =>
        if e = 'u' then
          match cs1 with
          | a :: b :: x :: d :: cs2 =>
            match hex4 a b x d, parseStringBody cs2 with
            | some ch, some (s, rest) => some (ch :: s, rest)
            | _, _ => none
          | _ => none
        else
          match unescape e, parseStringBody cs1 with
          | some ch, some (s, rest) => some (ch :: s, rest)
          | _, _ => none
    else if c.toNat < 32 then none
    else
      match parseStringBody cs with
      | some (s, rest) => some (c :: s, rest)
      | none => none

/-- Reads a number: the longest run of number characters at the front of the
text, which must be the text of a number. -/
def parseNumber (cs : List Char) : Option (JsNumber × List Char) :=
  if h : isNumberText (cs.span isNumberChar).1 = true then
    some ({ text := (cs.span isNumberChar).1, canonical := h }, (cs.span isNumberChar).2)
  else none

/-- Reads the given characters literally. -/
def expect : List Char → List Char → Option (List Char)
  | [], cs => some cs
  | _ :: _, [] => none
  | e :: es, c :: cs => if e = c then expect es cs else none

mutual
/-- Reads one JSON value from the front of a text; the first argument bounds
the number of nested calls. -/
def parseValue : Nat → List Char → Option (Json × List Char)
  | 0, _ => none
  | _ + 1, [] => none
  | fuel + 1, c :: cs =>
    if c = 'n' then
      match expect ['u', 'l', 'l'] cs with
      | some rest => some (Json.null, rest)
      | none => none
    else if c = 't' then
      match expect ['r', 'u', 'e'] cs with
      | some rest => some (Json.bool true, rest)
      | none => none
    else if c = 'f' then
      match expect ['a', 'l', 's', 'e'] cs with
      | some rest => some (Json.bool false, rest)
      | none => none
    else if c = '"' then
      match parseStringBody cs with
      | some (s, rest) => some (Json.str (String.mk s), rest)
      | none => none
    else if c = '[' then
      match cs with
      | ']' :: rest => some (Json.arr [], rest)
      | _ =>
        match parseValue fuel cs with
        | none => none
        | some (x, rest) =>
          match parseTail fuel rest with
          | some (xs, rest1) => some (Json.arr (x :: xs), rest1)
          | none => none
    else if c = '{' then
      match cs with
      | '}' :: rest => some (Json.obj [], rest)
      | _ =>
        match parseMember fuel cs with
        | none => none
        | some (kv, rest) =>
          match parseMemberTail fuel rest with
          | some (kvs, rest1) => some (Json.obj (kv :: kvs), rest1)
          | none => none
    else
      match parseNumber (c :: cs) with
      | some (x, rest) => some (Json.num x, rest)
      | none => none
/-- Reads the elements of an array after the first, then `]`. -/
def parseTail : Nat → List Char → Option (List Json × List Char)
  | 0, _ => none
  | _ + 1, [] => none
  | fuel + 1, c :: cs =>
    if c = ']' then some ([], cs)
    else if c = ',' then
      match parseValue fuel cs with
      | none => none
      | some (x, rest) =>
        match parseTail fuel rest with
        | some (xs, rest1) => some (x :: xs, rest1)
        | none => none
    else none
/-- Reads one member `"key":value` of an object. -/
def parseMember : Nat → List Char → Option ((String × Json) × List Char)
  | 0, _ => none
  | _ + 1, [] => none
  | fuel + 1, c :: cs =>
    if c = '"' then
      match parseStringBody cs with
      | some (k, ':' :: rest) =>
        match parseValue fuel rest with
        | some (v, rest1) => some ((String.mk k, v), rest1)
        | none => none
      | _ => none
    else none
/-- Reads the members of an object after the first, then `}`. -/
def parseMemberTail : Nat → List Char → Option (List (String × Json) × List Char)
  | 0, _ => none
  | _ + 1, [] => none
  | fuel + 1, c :: cs =>
    if c = '}' then some ([], cs)
    else if c = ',' then
      match parseMember fuel cs with
      | none => none
      | some (kv, rest) =>
        match parseMemberTail fuel rest with
        | some (kvs, rest1) => some (kv :: kvs, rest1)
        | none => none
    else none
end

/-- A decoder of JSON text (no white space, numbers in the form in which
`JSON.stringify` writes them): the value a text
denotes, or `none` when the text is not of that form. The members of an object
are kept all, in the order of the text. -/
def Json.parse (s : String) : Option Json :=
  match parseValue (2 * s.length) s.toList with
  | some (v, []) => some v
  | _ => none

/-! ## The values a caller passes, and what `JSON.stringify` makes of them -/

/-- A JavaScript value passed as an argument: `undefined`, `null`, a boolean, a
finite number, `NaN`, an infinity, a string, an array or a plain object of such
values. -/
inductive JsValue where
  | undefined : JsValue
  | null : JsValue
  | bool (b : Bool) : JsValue
  | num (x : JsNumber) : JsValue
  | nan : JsValue
  | infinity : JsValue
  | negInfinity : JsValue
  | str (s : String) : JsValue
  | arr (xs : List JsValue) : JsValue
  | obj (kvs : List (String × JsValue)) : JsValue

mutual
/-- The JSON data that `JSON.stringify` writes for a value, `none` when it writes
nothing (`undefined`): a number that is not finite becomes `null`, an element
`undefined` of an array becomes `null`, a property `undefined` of an object is
left out. -/
def JsValue.serial : JsValue → Option Json
  | JsValue.undefined => none
  | JsValue.null => some Json.null
  | JsValue.bool b => some (Json.bool b)
  | JsValue.num x => some (Json.num x)
  | JsValue.nan => some Json.null
  | JsValue.infinity => some Json.null
  | JsValue.negInfinity => some Json.null
  | JsValue.str s => some (Json.str s)
  | JsValue.arr xs => some (Json.arr (serialElements xs))
  | JsValue.obj kvs => some (Json.obj (serialMembers kvs))
/-- The elements that `JSON.stringify` writes for the elements of an array. -/
def serialElements : List JsValue → List Json
  | [] => []
  | x :: xs =>
    (match JsValue.serial x with
      | some j => j
      | none => Json.null) :: serialElements xs
/-- The members that `JSON.stringify` writes for the properties of an object. -/
def serialMembers : List (String × JsValue) → List (String × Json)
  | [] => []
  | (k, v) :: kvs =>
    match JsValue.serial v with
    | some j => (k, j) :: serialMembers kvs
    | none => serialMembers kvs
end

/-- The text `JSON.stringify({ k1: v1, k2: v2, ... })` of an object literal with
the given properties. -/
def stringifyObject (properties : List (String × JsValue)) : String :=
  JSON.stringify (Json.obj (serialMembers properties))

mutual
/-- JSON data as a value that a caller passes. -/
def JsValue.ofJson : Json → JsValue
  | Json.null => JsValue.null
  | Json.bool b => JsValue.bool b
  | Json.num x => JsValue.num x
  | Json.str s => JsValue.str s
  | Json.arr xs => JsValue.arr (JsValue.ofJsonList xs)
  | Json.obj kvs => JsValue.obj (JsValue.ofJsonMembers kvs)
/-- The elements of an array of JSON data as values. -/
def JsValue.ofJsonList : List Json → List JsValue
  | [] => []
  | x :: xs => JsValue.ofJson x :: JsValue.ofJsonList xs
/-- The members of an object of JSON data as properties. -/
def JsValue.ofJsonMembers : List (String × Json) → List (String × JsValue)
  | [] => []
  | (k, v) :: kvs => (k, JsValue.ofJson v) :: JsValue.ofJsonMembers kvs
end

/-- An argument that is JSON data or is omitted (`none`, the value `undefined`). -/
def JsValue.ofOption : Option Json → JsValue
  | none => JsValue.undefined
  | some j => JsValue.ofJson j

/-- A parameter with a default, `parameter = fallback`: the fallback stands in
for an argument that is `undefined`, and for no other. -/
def JsValue.orDefault (argument fallback : JsValue) : JsValue :=
  match argument with
  | JsValue.undefined => fallback
  | _ => argument

/-! ## The transport -/

/-- What the client reads of a `fetch` response: the status line, and `json`,
the outcome of `response.json()` (the parsed body, or the error it rejects
with when the body is not JSON). -/
structure Response where
  status : Nat
  statusText : String
  json : Except JsError Json

/-- The `ok` flag of a response: the status is in the range 200..299. -/
def Response.ok (r : Response) : Bool := decide (200 ≤ r.status) && decide (r.status ≤ 299)

/-- An observable event. -/
inductive Event where
  | fetch (url : String) (config : JsObject) : Event
  | json (status : Nat) : Event
  | consoleError (label : String) (error : JsError) : Event

/-- The environment: what `fetch(url, config)` does after the given history,
reject with an error or resolve to a response. -/
structure Network where
  fetch : List Event → String → JsObject → Except JsError Response

/-- An `async` computation: from the log so far to the outcome and the new log. -/
abbrev Async (α : Type) := List Event → Except JsError α × List Event

/-! ## `ASCAApiClient` -/

/-- The constant `API_BASE_URL`. -/
def API_BASE_URL : String := "http://localhost:8080"

/-- An instance of the class `ASCAApiClient`: its only field. -/
structure ASCAApiClient where
  baseUrl : String
  deriving DecidableEq, Repr

/-- The constructor, `new ASCAApiClient(baseUrl = API_BASE_URL)`; `none` is an
omitted argument. -/
def ASCAApiClient.new (baseUrl : Option String) : ASCAApiClient :=
  { baseUrl := baseUrl.getD API_BASE_URL }

/-- The object `config` that `request` builds: the literal
`{ headers: { 'Content-Type': 'application/json', ...options.headers }, ...options }`. -/
def requestConfig (options : JsObject) : JsObject :=
  JsObject.spread
    [("headers", Json.obj
      (JsObject.spread [("Content-Type", Json.str "application/json")]
        (spreadSource (JsObject.get options "headers"))))]
    options

/-- The body of the `try` block of `request`. -/
def requestTry (net : Network) (url : String) (config : JsObject) : Async Json := fun log =>
  match net.fetch log url config with
  | Except.error e => (Except.error e, log ++ [Event.fetch url config])
  | Except.ok response =>
    if !response.ok then
      (Except.error (JsError.new
          ("API Error: " ++ toString response.status ++ " " ++ response.statusText)),
        log ++ [Event.fetch url config])
    else
      (response.json, log ++ [Event.fetch url config, Event.json response.status])

/-- The method `request(endpoint, options = {})`; `none` is an omitted second
argument. The `catch` block logs the error and throws it again. -/
def ASCAApiClient.request (self : ASCAApiClient) (net : Network) (endpoint : String)
    (options : Option JsObject) : Async Json := fun log =>
  let options := options.getD []
  let url := self.baseUrl ++ endpoint
  let config := requestConfig options
  match requestTry net url config log with
  | (Except.error error, log') =>
    (Except.error error, log' ++ [Event.consoleError "API Request failed:" error])
  | (Except.ok value, log') => (Except.ok value, log')

/-- The method `healthCheck()`. -/
def ASCAApiClient.healthCheck (self : ASCAApiClient) (net : Network) : Async Json :=
  self.request net "/" none

/-- The method `analyzeAssignment(assignment)`. -/
def ASCAApiClient.analyzeAssignment (self : ASCAApiClient) (net : Network)
    (assignment : Json) : Async Json :=
  self.request net "/api/analyze-assignment"
    (some [("method", Json.str "POST"), ("body", Json.str (JSON.stringify assignment))])

/-- The method `analyzeWorkload(assignments)`. -/
def ASCAApiClient.analyzeWorkload (self : ASCAApiClient) (net : Network)
    (assignments : Json) : Async Json :=
  self.request net "/api/analyze-workload"
    (some [("method", Json.str "POST"), ("body", Json.str (JSON.stringify assignments))])

/-- The method `createSchedule(assignments, preferences = null)`. -/
def ASCAApiClient.createSchedule (self : ASCAApiClient) (net : Network)
    (assignments preferences : JsValue) : Async Json :=
  let preferences := preferences.orDefault JsValue.null
  self.request net "/api/create-schedule"
    (some [("method", Json.str "POST"),
      ("body", Json.str (stringifyObject
        [("assignments", assignments), ("preferences", preferences)]))])

/-- The method `wellnessCheck(assignments, preferences = null, wellnessInput = null)`. -/
def ASCAApiClient.wellnessCheck (self : ASCAApiClient) (net : Network)
    (assignments preferences wellnessInput : JsValue) : Async Json :=
  let preferences := preferences.orDefault JsValue.null
  let wellnessInput := wellnessInput.orDefault JsValue.null
  self.request net "/api/wellness-check"
    (some [("method", Json.str "POST"),
      ("body", Json.str (stringifyObject
        [("assignments", assignments), ("preferences", preferences),
          ("wellness_input", wellnessInput)]))])

/-- The method `fullAnalysis(assignments, preferences = null, wellnessInput = null)`. -/
def ASCAApiClient.fullAnalysis (self : ASCAApiClient) (net : Network)
    (assignments preferences wellnessInput : JsValue) : Async Json :=
  let preferences := preferences.orDefault JsValue.null
  let wellnessInput := wellnessInput.orDefault JsValue.null
  self.request net "/api/full-analysis"
    (some [("method", Json.str "POST"),
      ("body", Json.str (stringifyObject
        [("assignments", assignments), ("preferences", preferences),
          ("wellness_input", wellnessInput)]))])

/-- The method `suggestBreak(currentActivity, timeWorked)`. -/
def ASCAApiClient.suggestBreak (self : ASCAApiClient) (net : Network)
    (currentActivity timeWorked : JsValue) : Async Json :=
  self.request net "/api/suggest-break"
    (some [("method", Json.str "POST"),
      ("body", Json.str (stringifyObject
        [("current_activity", currentActivity), ("time_worked", timeWorked)]))])

/-- A call of one of the seven operations of the client, with its arguments. -/
inductive Operation where
  | healthCheck : Operation
  | analyzeAssignment (assignment : Json) : Operation
  | analyzeWorkload (assignments : Json) : Operation
  | createSchedule (assignments preferences : JsValue) : Operation
  | wellnessCheck (assignments preferences wellnessInput : JsValue) : Operation
  | fullAnalysis (assignments preferences wellnessInput : JsValue) : Operation
  | suggestBreak (currentActivity timeWorked : JsValue) : Operation

/-- Runs a call on a client. -/
def Operation.run (self : ASCAApiClient) (net : Network) : Operation → Async Json
  | Operation.healthCheck => self.healthCheck net
  | Operation.analyzeAssignment a => self.analyzeAssignment net a
  | Operation.analyzeWorkload a => self.analyzeWorkload net a
  | Operation.createSchedule a p => self.createSchedule net a p
  | Operation.wellnessCheck a p w => self.wellnessCheck net a p w
  | Operation.fullAnalysis a p w => self.fullAnalysis net a p w
  | Operation.suggestBreak c t => self.suggestBreak net c t

/-! ## Reading the log and the config -/

/-- The calls of `fetch` in a log, in order: URL and config of each. -/
def fetches : List Event → List (String × JsObject)
  | [] => []
  | Event.fetch url config :: es => (url, config) :: fetches es
  | _ :: es => fetches es

/-- The number of calls of `response.json()` in a log. -/
def jsonCalls : List Event → Nat
  | [] => 0
  | Event.json _ :: es => jsonCalls es + 1
  | _ :: es => jsonCalls es

/-- The errors written with `console.error` in a log, in order. -/
def consoleErrors : List Event → List JsError
  | [] => []
  | Event.consoleError _ error :: es => error :: consoleErrors es
  | _ :: es => consoleErrors es

/-- The value of the header `name` in a config handed to `fetch`. -/
def headerOf (config : JsObject) (name : String) : Option Json :=
  match JsObject.get config "headers" with
  | some (Json.obj headers) => JsObject.get headers name
  | _ => none

/-- The HTTP method `fetch` uses for a config: its `method`, and GET when the
config has none. -/
def methodOf (config : JsObject) : Option String :=
  match JsObject.get config "method" with
  | none => some "GET"
  | some (Json.str m) => some m
  | some _ => none

/-! ## The data transfer objects -/

/-- An assignment, as the sample data of the page writes it. -/
structure Assignment where
  id : String
  title : String
  description : String
  due_date : String
  course : String
  deriving DecidableEq, Repr

/-- The JavaScript object of an assignment. -/
def Assignment.toJson (a : Assignment) : Json :=
  Json.obj [("id", Json.str a.id), ("title", Json.str a.title),
    ("description", Json.str a.description), ("due_date", Json.str a.due_date),
    ("course", Json.str a.course)]

/-- Reads an assignment back from a decoded object with exactly the five fields. -/
def Assignment.ofJson : Json → Option Assignment
  | Json.obj [("id", Json.str i), ("title", Json.str t), ("description", Json.str d),
      ("due_date", Json.str u), ("course", Json.str c)] =>
    some { id := i, title := t, description := d, due_date := u, course := c }
  | _ => none

/-- Reads every element of a list back as an assignment. -/
def decodeAssignmentList : List Json → Option (List Assignment)
  | [] => some []
  | x :: xs =>
    match Assignment.ofJson x, decodeAssignmentList xs with
    | some a, some rest => some (a :: rest)
    | _, _ => none

/-- Reads a sequence of assignments back from a decoded value: it must be a
plain array, and every element an assignment. -/
def decodeAssignments : Json → Option (List Assignment)
  | Json.arr xs => decodeAssignmentList xs
  | _ => none

/-- The function `getSampleAssignments()`. -/
def getSampleAssignments : List Assignment :=
  [ { id := "hw1", title := "History Essay",
      description := "Write a 5-page essay analyzing the causes of World War II",
      due_date := "2025-11-15", course := "History 101" },
    { id := "hw2", title := "Math Problem Set",
      description := "Complete problems 1-20 from Chapter 5 on Calculus",
      due_date := "2025-11-12", course := "Math 201" },
    { id := "hw3", title := "Programming Project",
      description := "Build a web application using React and Node.js",
      due_date := "2025-11-20", course := "CS 301" } ]

/-- The endpoint an operation passes to `request`. -/
def Operation.endpoint : Operation → String
  | Operation.healthCheck => "/"
  | Operation.analyzeAssignment _ => "/api/analyze-assignment"
  | Operation.analyzeWorkload _ => "/api/analyze-workload"
  | Operation.createSchedule _ _ => "/api/create-schedule"
  | Operation.wellnessCheck _ _ _ => "/api/wellness-check"
  | Operation.fullAnalysis _ _ _ => "/api/full-analysis"
  | Operation.suggestBreak _ _ => "/api/suggest-break"

/-- The options object an operation passes to `request` (`none`: it passes none). -/
def Operation.options : Operation → Option JsObject
  | Operation.healthCheck => none
  | Operation.analyzeAssignment a =>
    some [("method", Json.str "POST"), ("body", Json.str (JSON.stringify a))]
  | Operation.analyzeWorkload a =>
    some [("method", Json.str "POST"), ("body", Json.str (JSON.stringify a))]
  | Operation.createSchedule a p =>
    some [("method", Json.str "POST"),
      ("body", Json.str (stringifyObject
        [("assignments", a), ("preferences", p.orDefault JsValue.null)]))]
  | Operation.wellnessCheck a p w =>
    some [("method", Json.str "POST"),
      ("body", Json.str (stringifyObject
        [("assignments", a), ("preferences", p.orDefault JsValue.null),
          ("wellness_input", w.orDefault JsValue.null)]))]
  | Operation.fullAnalysis a p w =>
    some [("method", Json.str "POST"),
      ("body", Json.str (stringifyObject
        [("assignments", a), ("preferences", p.orDefault JsValue.null),
          ("wellness_input", w.orDefault JsValue.null)]))]
  | Operation.suggestBreak c t =>
    some [("method", Json.str "POST"),
      ("body", Json.str (stringifyObject [("current_activity", c), ("time_worked", t)]))]

/-- The call of `fetch` an operation leads to: the URL and the config. -/
def Operation.sent (self : ASCAApiClient) (op : Operation) : String × JsObject :=
  (self.baseUrl ++ op.endpoint, requestConfig (op.options.getD []))

/-- The HTTP method and the URL of every call of `fetch` in a log. -/
def requestLines (log : List Event) : List (Option String × String) :=
  (fetches log).map (fun p => (methodOf p.2, p.1))

/-- The log after `n` calls made one after the other, each awaited. -/
def repeatCall (call : Async Json) : Nat → List Event → List Event
  | 0, log => log
  | n + 1, log => repeatCall call n (call log).2

/-- A network on which every call of `fetch` resolves to the response `r`. -/
def Network.answering (r : Response) : Network := { fetch := fun _ _ _ => Except.ok r }

/-- A network on which every call of `fetch` rejects with the error `e`. -/
def Network.failing (e : JsError) : Network := { fetch := fun _ _ _ => Except.error e }

/-- A response with status 500. -/
def serverError : Response :=
  { status := 500, statusText := "Internal Server Error", json := Except.ok Json.null }

/-- The error of a `fetch` that cannot reach the server. -/
def failedToFetch : JsError := { name := "TypeError", message := "Failed to fetch" }

/-- A response with status 200 and an empty body: `response.json()` rejects. -/
def emptyBody : Response :=
  { status := 200, statusText := "OK",
    json := Except.error { name := "SyntaxError", message := "Unexpected end of JSON input" } }

/-- The workload summary of the end-to-end scenario of the specification. -/
def workloadSummary : Json :=
  Json.obj [("success", Json.bool true),
    ("data", Json.obj [("total_assignments", Json.num (JsNumber.ofString "3" rfl)), ("total_estimated_hours", Json.num (JsNumber.ofString "12" rfl)),
      ("high_priority_count", Json.num (JsNumber.ofString "1" rfl)), ("stress_level", Json.str "Medium"),
      ("recommendations", Json.arr [Json.str "Start early"])])]

/-- A response with status 200 whose body is the workload summary. -/
def workloadResponse : Response :=
  { status := 200, statusText := "OK", json := Except.ok workloadSummary }

/-- The log after a sequence of operations on one client, each awaited before
the next is called, whatever their outcomes. -/
def runAll (self : ASCAApiClient) (net : Network) : List Operation → List Event → List Event
  | [], log => log
  | op :: ops, log => runAll self net ops (op.run self net log).2

/-- The message of the error thrown for a response that is not ok. -/
def apiErrorMessage (r : Response) : String :=
  "API Error: " ++ toString r.status ++ " " ++ r.statusText

/-- Whether a text begins with a character that can stand in a number. -/
def startsWithNumberChar : List Char → Bool
  | [] => false
  | c :: _ => isNumberChar c

/-! ## The activity feed (`src/main.js`) -/

/-- An element made by `document.createElement('div')`: its class name and the
markup assigned to its `innerHTML`. -/
structure Element where
  className : String
  innerHTML : String
  deriving DecidableEq, Repr

/-- The error `TypeError` with the given message. -/
def typeError (message : String) : JsError := { name := "TypeError", message := message }

/-- An entry of the table `agentIcons`. -/
structure AgentIcon where
  icon : String
  color : String
  deriving DecidableEq, Repr

/-- The constant `agentIcons` of `addAgentActivity`. -/
def agentIcons : List (String × AgentIcon) :=
  [("assignment", { icon := "📅", color := "blue" }),
    ("research", { icon := "🔍", color := "green" }),
    ("study", { icon := "👥", color := "purple" }),
    ("transfer", { icon := "🎓", color := "orange" }),
    ("wellness", { icon := "🧘", color := "teal" })]

/-- The property names every object inherits from `Object.prototype`. -/
def objectPrototypeKeys : List String :=
  ["constructor", "__proto__", "hasOwnProperty", "isPrototypeOf", "propertyIsEnumerable",
    "toLocaleString", "toString", "valueOf", "__defineGetter__", "__defineSetter__",
    "__lookupGetter__", "__lookupSetter__"]

/-- The value of `agentIcons[agent]`: an entry of the table, an inherited
property (a value with neither `icon` nor `color`), or `undefined`. -/
inductive AgentData where
  | own (entry : AgentIcon) : AgentData
  | inherited : AgentData
  | undefined : AgentData
  deriving DecidableEq, Repr

/-- The expression `agentIcons[agent]`. -/
def lookupAgentIcon (agent : String) : AgentData :=
  match agentIcons.lookup agent with
  | some entry => AgentData.own entry
  | none => if agent ∈ objectPrototypeKeys then AgentData.inherited else AgentData.undefined

/-- The text of `agentData.color` inside a template; reading a property of
`undefined` throws. -/
def AgentData.colorText : AgentData → Except JsError String
  | AgentData.own entry => Except.ok entry.color
  | AgentData.inherited => Except.ok "undefined"
  | AgentData.undefined =>
    Except.error (typeError "Cannot read properties of undefined (reading 'color')")

/-- The text of `agentData.icon` inside a template; reading a property of
`undefined` throws. -/
def AgentData.iconText : AgentData → Except JsError String
  | AgentData.own entry => Except.ok entry.icon
  | AgentData.inherited => Except.ok "undefined"
  | AgentData.undefined =>
    Except.error (typeError "Cannot read properties of undefined (reading 'icon')")

/-- The template assigned to `activityElement.innerHTML`, its placeholders
evaluated from left to right. -/
def activityMarkup (agentData : AgentData) (message time : String) : Except JsError String :=
  match agentData.colorText, agentData.iconText with
  | Except.error e, _ => Except.error e
  | Except.ok _, Except.error e => Except.error e
  | Except.ok color, Except.ok icon =>
    Except.ok (
      "\n        <div class=\"flex items-center space-x-3\">\n" ++
      "            <div class=\"w-8 h-8 bg-" ++
      color ++
      "-100 rounded-full flex items-center justify-center\">\n" ++
      "                <span class=\"text-" ++
      color ++
      "-600 text-sm\">" ++
      icon ++
      "</span>\n            </div>\n            <div class=\"flex-1\">\n" ++
      "                <p class=\"text-sm font-medium text-charcoal-gray\">" ++
      message ++
      "</p>\n                <p class=\"text-xs text-gray-500\">" ++
      time ++
      "</p>\n            </div>\n        </div>\n    ")

/-- The function `addAgentActivity(agent, message, time)` on the element children
of the activity feed; `none` is a page without the feed. The animation of the
new element does not change the feed. -/
def addAgentActivity (agent message time : String) (feed : Option (List Element)) :
    Except JsError (Option (List Element)) :=
  match feed with
  | none => Except.ok none
  | some children =>
    match activityMarkup (lookupAgentIcon agent) message time with
    | Except.error e => Except.error e
    | Except.ok markup =>
      let activityElement : Element :=
        { className := "activity-item pl-4 py-3", innerHTML := markup }
      let activities := activityElement :: children
      if activities.length > 5 then Except.ok (some activities.dropLast)
      else Except.ok (some activities)

/-- What `startCollaborationDemo()` does: the notification it shows, and the
timer it starts, with its delay in milliseconds and its callback on the feed. -/
structure CollaborationDemo where
  notification : String × String
  delay : Nat
  callback : Option (List Element) → Except JsError (Option (List Element))

/-- The function `startCollaborationDemo()`. -/
def startCollaborationDemo : CollaborationDemo :=
  { notification := ("🤝 Starting Agent Collaboration Demo...", "success"),
    delay := 1500,
    callback := addAgentActivity "collaboration"
      "All agents coordinated to optimize your study schedule" "Just now" }

/-! ## Reading the backend's answer: properties, truthiness, text -/

/-- Property read `value.key` on a value of the backend's answer, `none` being
`undefined`, for a key that names no built-in property: an object gives its own
property or `undefined`, `undefined` and `null` throw, every other value gives
`undefined`. -/
def getProp (value : Option Json) (key : String) : Except JsError (Option Json) :=
  match value with
  | none =>
    Except.error (typeError ("Cannot read properties of undefined (reading '" ++ key ++ "')"))
  | some Json.null =>
    Except.error (typeError ("Cannot read properties of null (reading '" ++ key ++ "')"))
  | some (Json.obj kvs) => Except.ok (JsObject.get kvs key)
  | some _ => Except.ok none

/-- A chain of property reads `value.k1.k2...`. -/
def getPath : Option Json → List String → Except JsError (Option Json)
  | value, [] => Except.ok value
  | value, key :: keys =>
    match getProp value key with
    | Except.error e => Except.error e
    | Except.ok inner => getPath inner keys

/-- Whether a value counts as true in a condition. -/
def truthy : Option Json → Bool
  | none => false
  | some Json.null => false
  | some (Json.bool b) => b
  | some (Json.num x) => decide (x.text ≠ ['0'])
  | some (Json.str s) => decide (s ≠ "")
  | some (Json.arr _) => true
  | some (Json.obj _) => true

mutual
/-- The conversion of a value to a string: an array is its elements joined by
commas, an object is `[object Object]`, unless it has an own property
`toString`, which is no function and makes the conversion throw. With
`element` set the value is an element of an array that is being joined, where
`null` gives the empty string. -/
def toStringIn (element : Bool) : Json → Except JsError String
  | Json.null => Except.ok (if element then "" else "null")
  | Json.bool true => Except.ok "true"
  | Json.bool false => Except.ok "false"
  | Json.num x => Except.ok (String.mk x.text)
  | Json.str s => Except.ok s
  | Json.arr xs => joinElements xs
  | Json.obj kvs =>
    if "toString" ∈ JsObject.keys kvs then
      Except.error (typeError "Cannot convert object to primitive value")
    else Except.ok "[object Object]"
/-- The elements of an array joined by commas. -/
def joinElements : List Json → Except JsError String
  | [] => Except.ok ""
  | x :: xs =>
    match toStringIn true x with
    | Except.error e => Except.error e
    | Except.ok first =>
      if xs.isEmpty then Except.ok first
      else
        match joinElements xs with
        | Except.error e => Except.error e
        | Except.ok rest => Except.ok (first ++ "," ++ rest)
end

/-- The conversion of a value to a string, as a template placeholder does it. -/
def jsToString (value : Json) : Except JsError String := toStringIn false value

/-- The text of a template placeholder holding the value. -/
def display : Option Json → Except JsError String
  | none => Except.ok "undefined"
  | some v => jsToString v

/-- The text of the placeholder holding `value.k1.k2...`. -/
def displayPath (value : Option Json) (keys : List String) : Except JsError String :=
  match getPath value keys with
  | Except.error e => Except.error e
  | Except.ok inner => display inner

/-- The receiver of `value.slice(0, n).map(...)`: an array gives its elements,
every other value makes the call chain throw; `source` is the text of the
expression `value`. -/
def sliceReceiver (value : Option Json) (source : String) : Except JsError (List Json) :=
  match value with
  | some (Json.arr xs) => Except.ok xs
  | none => Except.error (typeError "Cannot read properties of undefined (reading 'slice')")
  | some Json.null => Except.error (typeError "Cannot read properties of null (reading 'slice')")
  | some (Json.str _) => Except.error (typeError (source ++ ".slice(...).map is not a function"))
  | some _ => Except.error (typeError (source ++ ".slice is not a function"))

/-- The receiver of `value.map(...)`: an array gives its elements, every other
value makes the call throw; `source` is the text of the expression `value`. -/
def mapReceiver (value : Option Json) (source : String) : Except JsError (List Json) :=
  match value with
  | some (Json.arr xs) => Except.ok xs
  | none => Except.error (typeError "Cannot read properties of undefined (reading 'map')")
  | some Json.null => Except.error (typeError "Cannot read properties of null (reading 'map')")
  | some _ => Except.error (typeError (source ++ ".map is not a function"))

/-- The expression `items.map(callback).join('')` for a callback that returns a
string or throws: the texts of the elements one after the other, in the order
of the array. -/
def mapJoin (callback : Json → Except JsError String) : List Json → Except JsError String
  | [] => Except.ok ""
  | x :: xs =>
    match callback x with
    | Except.error e => Except.error e
    | Except.ok first =>
      match mapJoin callback xs with
      | Except.error e => Except.error e
      | Except.ok rest => Except.ok (first ++ rest)

/-! ## The modals and notifications of `src/api-client.js` -/

/-- The template assigned to `modal.innerHTML` in `createModal`. -/
def createModalMarkup (title content : String) : String :=
    "\n" ++
    "        <div class=\"bg-white rounded-xl p-6 max-w-md w-full mx-4 max-h-96 overflow-y-auto\">\n" ++
    "            <div class=\"flex justify-between items-center mb-4\">\n" ++
    "                <h3 class=\"text-lg font-semibold text-charcoal-gray\">" ++
    title ++
    "</h3>\n" ++
    "                <button onclick=\"closeModal()\" class=\"text-gray-400 hover:text-gray-600\">\n" ++
    "                    <svg class=\"w-6 h-6\" fill=\"none\" stroke=\"currentColor\" viewBox=\"0 0 24 24\">\n" ++
    "                        <path stroke-linecap=\"round\" stroke-linejoin=\"round\" stroke-width=\"2\" d=\"M6 18L18 6M6 6l12 12\"></path>\n" ++
    "                    </svg>\n                </button>\n            </div>\n" ++
    "            " ++
    content ++
    "\n        </div>\n    "

/-- The function `createModal(title, content)`: the element it returns. Its
animations do not change the element. -/
def createModal (title content : String) : Element :=
  { className := "fixed inset-0 bg-black bg-opacity-50 flex items-center justify-center z-50",
    innerHTML := createModalMarkup title content }

/-- The callback of `map` in `displayWorkloadResults`: one list item for a recommendation. -/
def recommendationItem (recommendation : Json) : Except JsError String := do
  let v1 ← display (some recommendation)
  pure (
    "<li class=\"text-sm text-gray-600\">• " ++
    v1 ++
    "</li>")

/-- The placeholder `data.recommendations.slice(0, 5).map(...).join('')`. -/
def recommendationsMarkup (data : Option Json) : Except JsError String := do
  let recommendations ← getProp data "recommendations"
  let items ← sliceReceiver recommendations "data.recommendations"
  mapJoin recommendationItem (items.take 5)

/-- The template that `displayWorkloadResults(data)` passes to `createModal`, its
placeholders evaluated from left to right. -/
def workloadMarkup (data : Option Json) : Except JsError String := do
  let v1 ← displayPath data ["total_assignments"]
  let v2 ← displayPath data ["total_estimated_hours"]
  let v3 ← displayPath data ["high_priority_count"]
  let v4 ← displayPath data ["stress_level"]
  let v5 ← recommendationsMarkup data
  pure (
    "\n        <div class=\"space-y-4\">\n" ++
    "            <div class=\"grid grid-cols-2 gap-4\">\n" ++
    "                <div class=\"bg-blue-50 p-4 rounded-lg\">\n" ++
    "                    <div class=\"text-2xl font-bold text-blue-600\">" ++
    v1 ++
    "</div>\n" ++
    "                    <div class=\"text-sm text-gray-600\">Total Assignments</div>\n" ++
    "                </div>\n" ++
    "                <div class=\"bg-orange-50 p-4 rounded-lg\">\n" ++
    "                    <div class=\"text-2xl font-bold text-orange-600\">" ++
    v2 ++
    "h</div>\n" ++
    "                    <div class=\"text-sm text-gray-600\">Estimated Hours</div>\n" ++
    "                </div>\n                <div class=\"bg-red-50 p-4 rounded-lg\">\n" ++
    "                    <div class=\"text-2xl font-bold text-red-600\">" ++
    v3 ++
    "</div>\n" ++
    "                    <div class=\"text-sm text-gray-600\">High Priority</div>\n" ++
    "                </div>\n" ++
    "                <div class=\"bg-purple-50 p-4 rounded-lg\">\n" ++
    "                    <div class=\"text-2xl font-bold text-purple-600\">" ++
    v4 ++
    "</div>\n" ++
    "                    <div class=\"text-sm text-gray-600\">Stress Level</div>\n" ++
    "                </div>\n            </div>\n            \n" ++
    "            <div class=\"bg-gray-50 p-4 rounded-lg\">\n" ++
    "                <h4 class=\"font-semibold mb-2\">AI Recommendations:</h4>\n" ++
    "                <ul class=\"space-y-1\">\n                    " ++
    v5 ++
    "\n                </ul>\n            </div>\n        </div>\n    ")

/-- The callback of `map` in `displayScheduleResults`: the entry of one day. -/
def dayEntry (day : Json) : Except JsError String := do
  let v1 ← displayPath (some day) ["day"]
  let v2 ← displayPath (some day) ["date"]
  let v3 ← displayPath (some day) ["total_hours"]
  pure (
    "\n                    <div class=\"border-l-4 border-blue-500 pl-3 py-2\">\n" ++
    "                        <div class=\"font-medium\">" ++
    v1 ++
    " - " ++
    v2 ++
    "</div>\n                        <div class=\"text-sm text-gray-600\">" ++
    v3 ++
    " hours scheduled</div>\n                    </div>\n                ")

/-- The placeholder `schedule.daily_schedules.slice(0, 3).map(...).join('')`. -/
def dailySchedulesMarkup (schedule : Option Json) : Except JsError String := do
  let dailySchedules ← getProp schedule "daily_schedules"
  let days ← sliceReceiver dailySchedules "schedule.daily_schedules"
  mapJoin dayEntry (days.take 3)

/-- The template that `displayScheduleResults` passes to `createModal`, for the
value of `data.schedule`. -/
def scheduleMarkup (schedule : Option Json) : Except JsError String := do
  let v1 ← displayPath schedule ["flexibility_score"]
  let v2 ← dailySchedulesMarkup schedule
  pure (
    "\n        <div class=\"space-y-4\">\n" ++
    "            <div class=\"bg-green-50 p-4 rounded-lg\">\n" ++
    "                <div class=\"text-lg font-bold text-green-600\">Schedule Created!</div>\n" ++
    "                <div class=\"text-sm text-gray-600\">Flexibility Score: " ++
    v1 ++
    "/10</div>\n            </div>\n            \n" ++
    "            <div class=\"space-y-2\">\n" ++
    "                <h4 class=\"font-semibold\">First 3 Days:</h4>\n                " ++
    v2 ++
    "\n            </div>\n            \n" ++
    "            <button onclick=\"window.location.href='assignments.html'\" class=\"w-full bg-blue-600 text-white py-2 rounded-lg hover:bg-blue-700\">\n" ++
    "                View Full Schedule\n            </button>\n        </div>\n    ")

/-- The callback of `map` in `displayFullAnalysisResults`: the entry of one agent
communication. -/
def commEntry (comm : Json) : Except JsError String := do
  let v1 ← displayPath (some comm) ["agent"]
  let v2 ← displayPath (some comm) ["message_type"]
  pure (
    "\n                        <div class=\"flex items-center space-x-2\">\n" ++
    "                            <span class=\"text-blue-500\">→</span>\n" ++
    "                            <span class=\"font-medium\">" ++
    v1 ++
    "</span>\n                            <span class=\"text-gray-500\">" ++
    v2 ++
    "</span>\n                        </div>\n                    ")

/-- The placeholder `result.agent_communications.map(...).join('')`. -/
def agentCommunicationsMarkup (result : Option Json) : Except JsError String := do
  let communications ← getProp result "agent_communications"
  let items ← mapReceiver communications "result.agent_communications"
  mapJoin commEntry items

/-- The colour chosen by
`risk === 'High' ? 'red' : risk === 'Medium' ? 'yellow' : 'green'`. -/
def riskColor : Option Json → String
  | some (Json.str risk) =>
    if risk = "High" then "red" else if risk = "Medium" then "yellow" else "green"
  | _ => "green"

/-- The placeholder that chooses the colour from `result.summary.risk_level`. -/
def riskColorMarkup (result : Option Json) : Except JsError String := do
  let risk ← getPath result ["summary", "risk_level"]
  pure (riskColor risk)

/-- The template of `displayFullAnalysisResults(result)` up to the agent
communications. -/
def fullAnalysisHead (result : Option Json) : Except JsError String := do
  let v1 ← displayPath result ["summary", "total_assignments"]
  let v2 ← displayPath result ["summary", "total_hours"]
  let v3 ← displayPath result ["summary", "wellness_score"]
  pure (
    "\n        <div class=\"space-y-4\">\n" ++
    "            <div class=\"bg-gradient-to-r from-blue-500 to-purple-500 text-white p-4 rounded-lg\">\n" ++
    "                <div class=\"text-lg font-bold\">All 3 Agents Completed!</div>\n" ++
    "                <div class=\"text-sm\">Assignment Analyzer → Schedule Optimizer → Wellness Monitor</div>\n" ++
    "            </div>\n            \n" ++
    "            <div class=\"grid grid-cols-3 gap-3\">\n" ++
    "                <div class=\"bg-blue-50 p-3 rounded-lg text-center\">\n" ++
    "                    <div class=\"text-xl font-bold text-blue-600\">" ++
    v1 ++
    "</div>\n" ++
    "                    <div class=\"text-xs text-gray-600\">Assignments</div>\n" ++
    "                </div>\n" ++
    "                <div class=\"bg-orange-50 p-3 rounded-lg text-center\">\n" ++
    "                    <div class=\"text-xl font-bold text-orange-600\">" ++
    v2 ++
    "h</div>\n" ++
    "                    <div class=\"text-xs text-gray-600\">Total Hours</div>\n" ++
    "                </div>\n" ++
    "                <div class=\"bg-green-50 p-3 rounded-lg text-center\">\n" ++
    "                    <div class=\"text-xl font-bold text-green-600\">" ++
    v3 ++
    "</div>\n" ++
    "                    <div class=\"text-xs text-gray-600\">Wellness Score</div>\n" ++
    "                </div>\n            </div>\n            \n" ++
    "            <div class=\"bg-gray-50 p-4 rounded-lg\">\n" ++
    "                <h4 class=\"font-semibold mb-2\">Agent Communications:</h4>\n" ++
    "                <div class=\"space-y-2 text-sm\">\n                    ")

/-- The template of `displayFullAnalysisResults(result)` behind the agent
communications. -/
def fullAnalysisTail (result : Option Json) : Except JsError String := do
  let v1 ← riskColorMarkup result
  let v2 ← displayPath result ["summary", "risk_level"]
  let v3 ← displayPath result ["summary", "stress_level"]
  pure (
    "\n                </div>\n            </div>\n            \n" ++
    "            <div class=\"bg-" ++
    v1 ++
    "-50 p-4 rounded-lg\">\n                <div class=\"font-semibold\">Risk Level: " ++
    v2 ++
    "</div>\n                <div class=\"text-sm text-gray-600\">Stress: " ++
    v3 ++
    "</div>\n            </div>\n        </div>\n    ")

/-- The template that `displayFullAnalysisResults(result)` passes to `createModal`,
its placeholders evaluated from left to right. -/
def fullAnalysisMarkup (result : Option Json) : Except JsError String := do
  let head ← fullAnalysisHead result
  let communications ← agentCommunicationsMarkup result
  let tail ← fullAnalysisTail result
  pure (head ++ communications ++ tail)

/-- The text of the success notification of `analyzeAssignmentsWithBackend`. -/
def analysisCompleteMessage (data : Option Json) : Except JsError String := do
  let v1 ← displayPath data ["total_assignments"]
  let v2 ← displayPath data ["total_estimated_hours"]
  let v3 ← displayPath data ["stress_level"]
  pure (
    "✅ Analysis complete! " ++
    v1 ++
    " assignments, " ++
    v2 ++
    "h total. Stress: " ++
    v3)

/-- The text of the success notification of `performFullAnalysis`. -/
def fullAnalysisCompleteMessage (result : Option Json) : Except JsError String := do
  let v1 ← displayPath result ["summary", "wellness_score"]
  let v2 ← displayPath result ["summary", "risk_level"]
  pure (
    "✅ Complete! Wellness: " ++
    v1 ++
    "/100, Risk: " ++
    v2)

/-- An effect of the page that the user or the developer can observe. -/
inductive UiEvent where
  | notification (message type : String) : UiEvent
  | modal (element : Element) : UiEvent
  | consoleError (error : JsError) : UiEvent

/-- The observable state of the page: the log of the gateway, and the
notifications shown, modals opened and errors written to the console so far. -/
structure Page where
  log : List Event
  ui : List UiEvent

/-- A function of the page that may throw: from the page so far to the outcome
and the new page. -/
abbrev UiAsync (α : Type) := Page → Except JsError α × Page

/-- The function `showNotification(message, type)`: the banner it shows. -/
def showNotification (message type : String) (page : Page) : Page :=
  { page with ui := page.ui ++ [UiEvent.notification message type] }

/-- The statement `document.body.appendChild(modal)`. -/
def appendModal (modal : Element) (page : Page) : Page :=
  { page with ui := page.ui ++ [UiEvent.modal modal] }

/-- The statement `console.error(error)` of the actions. -/
def consoleError (error : JsError) (page : Page) : Page :=
  { page with ui := page.ui ++ [UiEvent.consoleError error] }

/-- The function `displayWorkloadResults(data)`. -/
def displayWorkloadResults (data : Option Json) : UiAsync Unit := fun page =>
  match workloadMarkup data with
  | Except.error e => (Except.error e, page)
  | Except.ok content =>
    (Except.ok (), appendModal (createModal "Workload Analysis Results" content) page)

/-- The function `displayScheduleResults(data)`. -/
def displayScheduleResults (data : Option Json) : UiAsync Unit := fun page =>
  match getProp data "schedule" with
  | Except.error e => (Except.error e, page)
  | Except.ok schedule =>
    match scheduleMarkup schedule with
    | Except.error e => (Except.error e, page)
    | Except.ok content =>
      (Except.ok (), appendModal (createModal "Optimized Schedule" content) page)

/-- The function `displayFullAnalysisResults(result)`. -/
def displayFullAnalysisResults (result : Option Json) : UiAsync Unit := fun page =>
  match fullAnalysisMarkup result with
  | Except.error e => (Except.error e, page)
  | Except.ok content =>
    (Except.ok (), appendModal (createModal "Complete Multi-Agent Analysis" content) page)

/-- The global `apiClient`, made by `new ASCAApiClient()`. -/
def apiClient : ASCAApiClient := ASCAApiClient.new none

/-- The text of the error notification of the three actions. -/
def backendNotRunning : String :=
  "❌ Backend not running. Start with: cd backend && python main.py"

/-- The `catch` block of the three actions: the error notification, then
`console.error(error)`. -/
def actionCatch (error : JsError) : UiAsync Unit := fun page =>
  (Except.ok (), consoleError error (showNotification backendNotRunning "error" page))

/-- The object `preferences` of `createScheduleWithBackend` and `performFullAnalysis`. -/
def samplePreferences : Json :=
  Json.obj [("daily_study_hours", Json.num (JsNumber.ofString "6" rfl)), ("preferred_start_time", Json.str "09:00"),
    ("break_frequency", Json.num (JsNumber.ofString "60" rfl)), ("break_duration", Json.num (JsNumber.ofString "15" rfl))]

/-- The object `wellnessInput` of `performFullAnalysis`. -/
def sampleWellnessInput : Json :=
  Json.obj [("mood", Json.str "focused"), ("stress_level", Json.num (JsNumber.ofString "5" rfl)),
    ("sleep_hours", Json.num (JsNumber.ofString "7" rfl)), ("energy_level", Json.num (JsNumber.ofString "7" rfl))]

/-- The array of the three sample assignments. -/
def sampleAssignmentsJson : Json := Json.arr (getSampleAssignments.map Assignment.toJson)

/-- The three sample assignments, the preferences and the wellness input as the
arguments that the actions pass. -/
def sampleAssignmentsValue : JsValue := JsValue.ofJson sampleAssignmentsJson

/-- The object `preferences` as an argument. -/
def samplePreferencesValue : JsValue := JsValue.ofJson samplePreferences

/-- The object `wellnessInput` as an argument. -/
def sampleWellnessValue : JsValue := JsValue.ofJson sampleWellnessInput

/-- The `try` block of `analyzeAssignmentsWithBackend`; its array `assignments` is
the one `getSampleAssignments()` returns. -/
def analyzeAssignmentsTry (net : Network) : UiAsync Unit := fun page =>
  let page := showNotification "🤖 Analyzing assignments with AI agents..." "info" page
  match apiClient.analyzeWorkload net sampleAssignmentsJson page.log with
  | (Except.error e, log) => (Except.error e, { page with log := log })
  | (Except.ok result, log) =>
    let page := { page with log := log }
    match getProp (some result) "success" with
    | Except.error e => (Except.error e, page)
    | Except.ok success =>
      if truthy success then
        match getProp (some result) "data" with
        | Except.error e => (Except.error e, page)
        | Except.ok data =>
          match analysisCompleteMessage data with
          | Except.error e => (Except.error e, page)
          | Except.ok message =>
            displayWorkloadResults data (showNotification message "success" page)
      else (Except.ok (), page)

/-- The function `analyzeAssignmentsWithBackend()`. -/
def analyzeAssignmentsWithBackend (net : Network) : UiAsync Unit := fun page =>
  match analyzeAssignmentsTry net page with
  | (Except.error error, page') => actionCatch error page'
  | (Except.ok value, page') => (Except.ok value, page')

/-- The `try` block of `createScheduleWithBackend`. -/
def createScheduleTry (net : Network) : UiAsync Unit := fun page =>
  let page := showNotification "📅 Creating optimized schedule with AI..." "info" page
  match apiClient.createSchedule net sampleAssignmentsValue samplePreferencesValue page.log with
  | (Except.error e, log) => (Except.error e, { page with log := log })
  | (Except.ok result, log) =>
    let page := { page with log := log }
    match getProp (some result) "success" with
    | Except.error e => (Except.error e, page)
    | Except.ok success =>
      if truthy success then
        let page := showNotification "✅ Schedule created successfully!" "success" page
        match getProp (some result) "data" with
        | Except.error e => (Except.error e, page)
        | Except.ok data => displayScheduleResults data page
      else (Except.ok (), page)

/-- The function `createScheduleWithBackend()`. -/
def createScheduleWithBackend (net : Network) : UiAsync Unit := fun page =>
  match createScheduleTry net page with
  | (Except.error error, page') => actionCatch error page'
  | (Except.ok value, page') => (Except.ok value, page')

/-- The `try` block of `performFullAnalysis`. -/
def performFullAnalysisTry (net : Network) : UiAsync Unit := fun page =>
  let page := showNotification "🤖 Running full multi-agent analysis..." "info" page
  match apiClient.fullAnalysis net sampleAssignmentsValue samplePreferencesValue
      sampleWellnessValue page.log with
  | (Except.error e, log) => (Except.error e, { page with log := log })
  | (Except.ok result, log) =>
    let page := { page with log := log }
    match getProp (some result) "success" with
    | Except.error e => (Except.error e, page)
    | Except.ok success =>
      if truthy success then
        match fullAnalysisCompleteMessage (some result) with
        | Except.error e => (Except.error e, page)
        | Except.ok message =>
          displayFullAnalysisResults (some result) (showNotification message "success" page)
      else (Except.ok (), page)

/-- The function `performFullAnalysis()`. -/
def performFullAnalysis (net : Network) : UiAsync Unit := fun page =>
  match performFullAnalysisTry net page with
  | (Except.error error, page') => actionCatch error page'
  | (Except.ok value, page') => (Except.ok value, page')

/-- The modals opened so far. -/
def modals : List UiEvent → List Element
  | [] => []
  | UiEvent.modal element :: es => element :: modals es
  | _ :: es => modals es

/-- The notifications shown so far: message and type of each. -/
def notifications : List UiEvent → List (String × String)
  | [] => []
  | UiEvent.notification message type :: es => (message, type) :: notifications es
  | _ :: es => notifications es

/-- A page on which nothing has happened yet. -/
def emptyPage : Page := { log := [], ui := [] }

/-- An answer of the full analysis with three agent communications: one with an
extra field, one plain, one whose agent is a number and whose message type is
missing. -/
def fullAnalysisAnswer : JsObject :=
  [("success", Json.bool true),
    ("summary", Json.obj [("total_assignments", Json.num (JsNumber.ofString "3" rfl)),
      ("total_hours", Json.num (JsNumber.ofString "12.5" rfl)),
      ("wellness_score", Json.num (JsNumber.ofString "80" rfl)),
      ("risk_level", Json.str "Medium"), ("stress_level", Json.str "Low")]),
    ("agent_communications", Json.arr
      [Json.obj [("agent", Json.str "Wellness Monitor"), ("message_type", Json.str "alert"),
          ("timestamp", Json.str "2025-11-10T09:00:00")],
        Json.obj [("agent", Json.str "Assignment Analyzer"),
          ("message_type", Json.str "report")],
        Json.obj [("agent", Json.num (JsNumber.ofString "3" rfl))]])]

/-- An answer of the full analysis that has a summary and no
`agent_communications`. -/
def answerWithoutCommunications : JsObject :=
  [("success", Json.bool true),
    ("summary", Json.obj [("total_assignments", Json.num (JsNumber.ofString "3" rfl)),
      ("total_hours", Json.num (JsNumber.ofString "12" rfl)),
      ("wellness_score", Json.num (JsNumber.ofString "80" rfl)),
      ("risk_level", Json.str "Medium"), ("stress_level", Json.str "Low")])]

/-- The text of a conversion that succeeded, and the empty text for one that
threw. -/
def textOr (outcome : Except JsError String) : String :=
  match outcome with
  | Except.ok text => text
  | Except.error _ => ""

/-- A network on which a call of `fetch` for the URL `down` rejects with the
error `e` and a call for any other URL resolves to the response `r`. -/
def Network.downAt (down : String) (e : JsError) (r : Response) : Network :=
  { fetch := fun _ url _ => if url = down then Except.error e else Except.ok r }

/-- A network on which a call of `fetch` for the URL `up` resolves to the
response `r` and a call for any other URL rejects with the error `e`. -/
def Network.upAt (up : String) (e : JsError) (r : Response) : Network :=
  { fetch := fun _ url _ => if url = up then Except.ok r else Except.error e }

/-- A response with status 200 whose body is `{}`. -/
def emptyObjectResponse : Response :=
  { status := 200, statusText := "OK", json := Except.ok (Json.obj []) }

/-- A response with status 200 whose body is `{"success": false}`. -/
def unsuccessfulResponse : Response :=
  { status := 200, statusText := "OK", json := Except.ok (Json.obj [("success", Json.bool false)]) }

/-- A response with status 200 whose body is `{"success": true}`, without `data`. -/
def successWithoutData : Response :=
  { status := 200, statusText := "OK", json := Except.ok (Json.obj [("success", Json.bool true)]) }

/-! ## The activity simulation (`src/main.js`) -/

/-- An entry of the array `activities` of `startAgentActivitySimulation`. -/
structure Activity where
  agent : String
  message : String
  time : String
  deriving DecidableEq, Repr

/-- The constant `activities` of `startAgentActivitySimulation`. -/
def activities : List Activity :=
  [{ agent := "assignment", message := "Updated your task priority list",
      time := "2 minutes ago" },
    { agent := "research", message := "Found 5 new academic sources", time := "5 minutes ago" },
    { agent := "study", message := "Matched you with 3 study partners", time := "8 minutes ago" },
    { agent := "transfer", message := "Updated UC transfer requirements",
      time := "12 minutes ago" },
    { agent := "wellness", message := "Suggested a 10-minute break", time := "15 minutes ago" }]

/-- The greatest double-precision number below 1: a value of `Math.random()` is
a double-precision number from 0 up to this one. -/
def greatestBelowOne : ℚ := 1 - 1 / 2 ^ 53

/-- The greatest double-precision number below 5. -/
def greatestBelowFive : ℚ := 5 - 1 / 2 ^ 50

/-- The index `Math.floor(Math.random() * activities.length)` for the random
value `r`; `fl` is the rounding of the exact product to a double-precision
number. -/
def randomIndex (fl : ℚ → ℚ) (r : ℚ) : Int := ⌊fl (r * (activities.length : ℚ))⌋

/-- The element `items[index]` of an array; `none` is `undefined`. -/
def elementAt {α : Type} (items : List α) (index : Int) : Option α :=
  if 0 ≤ index then items[index.toNat]? else none

/-- The callback of the interval of `startAgentActivitySimulation`, for the
random value `r`, on the feed: reading `randomActivity.agent` of `undefined`
throws. -/
def simulationTick (fl : ℚ → ℚ) (r : ℚ) (feed : Option (List Element)) :
    Except JsError (Option (List Element)) :=
  match elementAt activities (randomIndex fl r) with
  | none => Except.error (typeError "Cannot read properties of undefined (reading 'agent')")
  | some randomActivity =>
    addAgentActivity randomActivity.agent randomActivity.message randomActivity.time feed

/-- What `startAgentActivitySimulation()` starts: an interval, with its period in
milliseconds and its callback. -/
structure ActivitySimulation where
  period : Nat
  callback : ℚ → Option (List Element) → Except JsError (Option (List Element))

/-- The function `startAgentActivitySimulation()`. -/
def startAgentActivitySimulation (fl : ℚ → ℚ) : ActivitySimulation :=
  { period := 45000, callback := simulationTick fl }

/-! ## The decoder reads back what `JSON.stringify` writes -/

theorem parseStringBody_escape (e ch : Char) (t : List Char) (h : e ≠ 'u')
    (hu : unescape e = some ch) :
    parseStringBody ('\\' :: e :: t) =
      match parseStringBody t with
      | some (s, rest) => some (ch :: s, rest)
      | none => none := by
  rw [parseStringBody.eq_def]
  simp only [h, hu]
  simp
  cases parseStringBody t <;> rfl

theorem parseStringBody_hex (a b x d ch : Char) (t : List Char) (hh : hex4 a b x d = some ch) :
    parseStringBody ('\\' :: 'u' :: a :: b :: x :: d :: t) =
      match parseStringBody t with
      | some (s, rest) => some (ch :: s, rest)
      | none => none := by
  rw [parseStringBody.eq_def]
  simp only [hh]
  simp
  cases parseStringBody t <;> rfl

theorem parseStringBody_plain (c : Char) (t : List Char) (h1 : c ≠ '"') (h2 : c ≠ '\\')
    (h3 : ¬ c.toNat < 32) :
    parseStringBody (c :: t) =
      match parseStringBody t with
      | some (s, rest) => some (c :: s, rest)
      | none => none := by
  rw [parseStringBody.eq_def]
  simp [h1, h2, h3]

theorem parseStringBody_quote (t : List Char) :
    parseStringBody ('"' :: t) = some ([], t) := by
  rw [parseStringBody.eq_def]
  simp

theorem hex4_control (n : Nat) (h : n < 32) :
    hex4 '0' '0' (hexDigit (n / 16)) (hexDigit (n % 16)) = some (Char.ofNat n) := by
  interval_cases n <;> rfl

theorem parseStringBody_quoteChar (c : Char) (t : List Char) :
    parseStringBody (quoteChar c ++ t) =
      match parseStringBody t with
      | some (s, rest) => some (c :: s, rest)
      | none => none := by
  unfold quoteChar
  by_cases h1 : c = '"'
  · subst h1
    exact parseStringBody_escape '"' '"' t (by decide) rfl
  by_cases h2 : c = '\\'
  · subst h2
    exact parseStringBody_escape '\\' '\\' t (by decide) rfl
  have hc : ∀ n, c.toNat = n → c = Char.ofNat n := fun n hn => by
    rw [← hn, Char.ofNat_toNat]
  rw [if_neg h1, if_neg h2]
  by_cases h8 : c.toNat = 8
  · rw [if_pos h8, hc 8 h8]
    exact parseStringBody_escape 'b' _ t (by decide) rfl
  rw [if_neg h8]
  by_cases h9 : c.toNat = 9
  · rw [if_pos h9, hc 9 h9]
    exact parseStringBody_escape 't' _ t (by decide) rfl
  rw [if_neg h9]
  by_cases h10 : c.toNat = 10
  · rw [if_pos h10, hc 10 h10]
    exact parseStringBody_escape 'n' _ t (by decide) rfl
  rw [if_neg h10]
  by_cases h12 : c.toNat = 12
  · rw [if_pos h12, hc 12 h12]
    exact parseStringBody_escape 'f' _ t (by decide) rfl
  rw [if_neg h12]
  by_cases h13 : c.toNat = 13
  · rw [if_pos h13, hc 13 h13]
    exact parseStringBody_escape 'r' _ t (by decide) rfl
  rw [if_neg h13]
  by_cases h32 : c.toNat < 32
  · rw [if_pos h32]
    have := parseStringBody_hex '0' '0' (hexDigit (c.toNat / 16)) (hexDigit (c.toNat % 16))
      (Char.ofNat c.toNat) t (hex4_control c.toNat h32)
    rw [Char.ofNat_toNat] at this
    exact this
  · rw [if_neg h32]
    exact parseStringBody_plain c t h1 h2 h32

theorem parseStringBody_quoteChars (s rest : List Char) :
    parseStringBody (quoteChars s ++ rest) = some (s, rest) := by
  induction s with
  | nil => exact parseStringBody_quote rest
  | cons c cs ih =>
    rw [quoteChars, List.append_assoc, parseStringBody_quoteChar, ih]

/-- The longest run of characters with a property, read off a text that
consists of such a run and a rest that does not begin with such a character. -/
theorem takeWhile_dropWhile_append (p : Char → Bool) (run rest : List Char)
    (hrun : run.all p = true) (hrest : ∀ c ∈ rest.head?, p c = false) :
    (run ++ rest).takeWhile p = run ∧ (run ++ rest).dropWhile p = rest := by
  induction run with
  | nil =>
    cases rest with
    | nil => exact ⟨rfl, rfl⟩
    | cons c cs =>
      have hc : p c = false := hrest c rfl
      simp [hc]
  | cons d ds ih =>
    simp only [List.all_cons, Bool.and_eq_true] at hrun
    have ih' := ih hrun.2
    simp [hrun.1, ih'.1, ih'.2]

theorem span_append_of_all (p : Char → Bool) (run rest : List Char)
    (hrun : run.all p = true) (hrest : ∀ c ∈ rest.head?, p c = false) :
    (run ++ rest).span p = (run, rest) := by
  have h := takeWhile_dropWhile_append p run rest hrun hrest
  simp [h.1, h.2]

theorem JsNumber.all_numberChar (x : JsNumber) : x.text.all isNumberChar = true := by
  have h := x.canonical
  unfold isNumberText at h
  exact (Bool.and_eq_true _ _ ▸ h).1

theorem JsNumber.text_shape (x : JsNumber) :
    ∃ d ds, x.text = d :: ds ∧ isNumberChar d = true := by
  have ha := x.all_numberChar
  have h := x.canonical
  cases hx : x.text with
  | nil =>
    rw [hx] at h
    exact absurd h (by decide)
  | cons d ds =>
    rw [hx] at ha
    simp only [List.all_cons, Bool.and_eq_true] at ha
    exact ⟨d, ds, rfl, ha.1⟩

theorem parseNumber_text (x : JsNumber) (rest : List Char)
    (hr : startsWithNumberChar rest = false) :
    parseNumber (x.text ++ rest) = some (x, rest) := by
  have hs : (x.text ++ rest).span isNumberChar = (x.text, rest) := by
    apply span_append_of_all isNumberChar x.text rest x.all_numberChar
    intro c hc
    cases rest with
    | nil => cases hc
    | cons d ds =>
      simp only [List.head?_cons, Option.mem_def, Option.some.injEq] at hc
      subst hc
      exact hr
  unfold parseNumber
  simp only [hs]
  rw [dif_pos x.canonical]

theorem parseValue_cons (fuel : Nat) (c : Char) (cs : List Char) :
    parseValue (fuel + 1) (c :: cs) =
    if c = 'n' then
      match expect ['u', 'l', 'l'] cs with
      | some rest => some (Json.null, rest)
      | none => none
    else if c = 't' then
      match expect ['r', 'u', 'e'] cs with
      | some rest => some (Json.bool true, rest)
      | none => none
    else if c = 'f' then
      match expect ['a', 'l', 's', 'e'] cs with
      | some rest => some (Json.bool false, rest)
      | none => none
    else if c = '"' then
      match parseStringBody cs with
      | some (s, rest) => some (Json.str (String.mk s), rest)
      | none => none
    else if c = '[' then
      match cs with
      | ']' :: rest => some (Json.arr [], rest)
      | _ =>
        match parseValue fuel cs with
        | none => none
        | some (x, rest) =>
          match parseTail fuel rest with
          | some (xs, rest1) => some (Json.arr (x :: xs), rest1)
          | none => none
    else if c = '{' then
      match cs with
      | '}' :: rest => some (Json.obj [], rest)
      | _ =>
        match parseMember fuel cs with
        | none => none
        | some (kv, rest) =>
          match parseMemberTail fuel rest with
          | some (kvs, rest1) => some (Json.obj (kv :: kvs), rest1)
          | none => none
    else
      match parseNumber (c :: cs) with
      | some (x, rest) => some (Json.num x, rest)
      | none => none := by
  rfl

theorem parseTail_cons (fuel : Nat) (c : Char) (cs : List Char) :
    parseTail (fuel + 1) (c :: cs) =
    if c = ']' then some ([], cs)
    else if c = ',' then
      match parseValue fuel cs with
      | none => none
      | some (x, rest) =>
        match parseTail fuel rest with
        | some (xs, rest1) => some (x :: xs, rest1)
        | none => none
    else none := by
  rfl

theorem parseMember_cons (fuel : Nat) (c : Char) (cs : List Char) :
    parseMember (fuel + 1) (c :: cs) =
    if c = '"' then
      match parseStringBody cs with
      | some (k, ':' :: rest) =>
        match parseValue fuel rest with
        | some (v, rest1) => some ((String.mk k, v), rest1)
        | none => none
      | _ => none
    else none := by
  rfl

theorem parseMemberTail_cons (fuel : Nat) (c : Char) (cs : List Char) :
    parseMemberTail (fuel + 1) (c :: cs) =
    if c = '}' then some ([], cs)
    else if c = ',' then
      match parseMember fuel cs with
      | none => none
      | some (kv, rest) =>
        match parseMemberTail fuel rest with
        | some (kvs, rest1) => some (kv :: kvs, rest1)
        | none => none
    else none := by
  rfl

theorem parseValue_num (fuel : Nat) (x : JsNumber) (rest : List Char)
    (hr : startsWithNumberChar rest = false) :
    parseValue (fuel + 1) (x.text ++ rest) = some (Json.num x, rest) := by
  obtain ⟨d, ds, h, hd⟩ := x.text_shape
  have hp := parseNumber_text x rest hr
  rw [h, List.cons_append] at hp ⊢
  have hne : ∀ c : Char, isNumberChar c = false → d ≠ c := by
    intro c hc hdc
    subst hdc
    rw [hd] at hc
    cases hc
  rw [parseValue_cons]
  simp only [if_neg (hne 'n' rfl), if_neg (hne 't' rfl), if_neg (hne 'f' rfl),
    if_neg (hne '"' rfl), if_neg (hne '[' rfl), if_neg (hne '{' rfl), hp]

theorem parseValue_str (fuel : Nat) (s : String) (rest : List Char) :
    parseValue (fuel + 1) (quote s ++ rest) = some (Json.str s, rest) := by
  rw [quote, List.cons_append, parseValue_cons]
  simp [parseStringBody_quoteChars]

/-- The first character of the text of a value is neither a digit-free closing
bracket nor a closing brace. -/
theorem stringifyValue_shape (v : Json) :
    ∃ d ds, stringifyValue v = d :: ds ∧ d ≠ ']' ∧ d ≠ '}' := by
  cases v with
  | null => exact ⟨_, _, rfl, by decide, by decide⟩
  | bool b => cases b <;> exact ⟨_, _, rfl, by decide, by decide⟩
  | num x =>
    obtain ⟨d, ds, h, hd⟩ := x.text_shape
    refine ⟨d, ds, by rw [stringifyValue, h], ?_, ?_⟩ <;>
    · intro hc
      subst hc
      exact absurd hd (by decide)
  | str s => exact ⟨_, _, rfl, by decide, by decide⟩
  | arr xs => cases xs <;> exact ⟨_, _, rfl, by decide, by decide⟩
  | obj kvs =>
    cases kvs with
    | nil => exact ⟨_, _, rfl, by decide, by decide⟩
    | cons kv kvs => cases kv; exact ⟨_, _, rfl, by decide, by decide⟩

theorem stringifyTail_startsWithNumberChar (xs : List Json) (rest : List Char) :
    startsWithNumberChar (stringifyTail xs ++ rest) = false := by
  cases xs <;> rfl

theorem stringifyMemberTail_startsWithNumberChar (kvs : List (String × Json)) (rest : List Char) :
    startsWithNumberChar (stringifyMemberTail kvs ++ rest) = false := by
  cases kvs with
  | nil => rfl
  | cons kv kvs => cases kv; rfl

theorem parseValue_array (fuel : Nat) (d : Char) (ds : List Char) (hd : d ≠ ']') :
    parseValue (fuel + 1) ('[' :: d :: ds) =
      match parseValue fuel (d :: ds) with
      | none => none
      | some (x, rest) =>
        match parseTail fuel rest with
        | some (xs, rest1) => some (Json.arr (x :: xs), rest1)
        | none => none := by
  rw [parseValue_cons]
  simp [hd]

theorem parseValue_object (fuel : Nat) (d : Char) (ds : List Char) (hd : d ≠ '}') :
    parseValue (fuel + 1) ('{' :: d :: ds) =
      match parseMember fuel (d :: ds) with
      | none => none
      | some (kv, rest) =>
        match parseMemberTail fuel rest with
        | some (kvs, rest1) => some (Json.obj (kv :: kvs), rest1)
        | none => none := by
  rw [parseValue_cons]
  simp [hd]

theorem parseMember_quote (fuel : Nat) (k : String) (v : Json) (rest : List Char)
    (ih : parseValue fuel (stringifyValue v ++ rest) = some (v, rest)) :
    parseMember (fuel + 1) (quote k ++ ':' :: (stringifyValue v ++ rest)) =
      some ((k, v), rest) := by
  rw [quote, List.cons_append, parseMember_cons]
  simp [parseStringBody_quoteChars, ih]

mutual
theorem parseValue_stringifyValue : ∀ (v : Json) (fuel : Nat) (rest : List Char),
    (stringifyValue v).length ≤ fuel → startsWithNumberChar rest = false →
    parseValue fuel (stringifyValue v ++ rest) = some (v, rest)
  | Json.null, fuel, rest, hf, _ => by
    cases fuel with
    | zero => simp [stringifyValue] at hf
    | succ f => simp [stringifyValue, parseValue_cons, expect]
  | Json.bool true, fuel, rest, hf, _ => by
    cases fuel with
    | zero => simp [stringifyValue] at hf
    | succ f => simp [stringifyValue, parseValue_cons, expect]
  | Json.bool false, fuel, rest, hf, _ => by
    cases fuel with
    | zero => simp [stringifyValue] at hf
    | succ f => simp [stringifyValue, parseValue_cons, expect]
  | Json.num x, fuel, rest, hf, hr => by
    cases fuel with
    | zero =>
      obtain ⟨d, ds, h, _⟩ := x.text_shape
      simp [stringifyValue, h] at hf
    | succ f => rw [stringifyValue]; exact parseValue_num f x rest hr
  | Json.str s, fuel, rest, hf, _ => by
    cases fuel with
    | zero => simp [stringifyValue, quote] at hf
    | succ f => rw [stringifyValue]; exact parseValue_str f s rest
  | Json.arr [], fuel, rest, hf, _ => by
    cases fuel with
    | zero => simp [stringifyValue] at hf
    | succ f => simp [stringifyValue, parseValue_cons]
  | Json.arr (x :: xs), fuel, rest, hf, _ => by
    cases fuel with
    | zero => simp [stringifyValue] at hf
    | succ f =>
      simp only [stringifyValue, List.length_cons, List.length_append] at hf
      have ihx := parseValue_stringifyValue x f (stringifyTail xs ++ rest) (by omega)
        (stringifyTail_startsWithNumberChar xs rest)
      have iht := parseTail_stringifyTail xs f rest (by omega)
      obtain ⟨d, ds, hx, hd, _⟩ := stringifyValue_shape x
      rw [stringifyValue, List.cons_append, List.append_assoc]
      rw [hx] at ihx ⊢
      rw [List.cons_append] at ihx ⊢
      rw [parseValue_array f d _ hd, ihx]
      simp only [iht]
  | Json.obj [], fuel, rest, hf, _ => by
    cases fuel with
    | zero => simp [stringifyValue] at hf
    | succ f => simp [stringifyValue, parseValue_cons]
  | Json.obj ((k, v) :: kvs), fuel, rest, hf, _ => by
    cases fuel with
    | zero => simp [stringifyValue] at hf
    | succ f =>
      cases f with
      | zero => simp [stringifyValue, quote] at hf
      | succ g =>
        simp only [stringifyValue, quote, List.length_cons, List.length_append] at hf
        have ihv := parseValue_stringifyValue v g (stringifyMemberTail kvs ++ rest) (by omega)
          (stringifyMemberTail_startsWithNumberChar kvs rest)
        have iht := parseMemberTail_stringifyMemberTail kvs (g + 1) rest (by omega)
        have hm := parseMember_quote g k v (stringifyMemberTail kvs ++ rest) ihv
        rw [stringifyValue, List.cons_append]
        rw [quote, List.cons_append] at hm ⊢
        rw [List.cons_append, parseValue_object (g + 1) '"' _ (by decide)]
        simp only [List.append_assoc, List.cons_append] at hm ⊢
        rw [hm]
        simp only [iht]
theorem parseTail_stringifyTail : ∀ (xs : List Json) (fuel : Nat) (rest : List Char),
    (stringifyTail xs).length ≤ fuel →
    parseTail fuel (stringifyTail xs ++ rest) = some (xs, rest)
  | [], fuel, rest, hf => by
    cases fuel with
    | zero => simp [stringifyTail] at hf
    | succ f => simp [stringifyTail, parseTail_cons]
  | x :: xs, fuel, rest, hf => by
    cases fuel with
    | zero => simp [stringifyTail] at hf
    | succ f =>
      simp only [stringifyTail, List.length_cons, List.length_append] at hf
      have ihx := parseValue_stringifyValue x f (stringifyTail xs ++ rest) (by omega)
        (stringifyTail_startsWithNumberChar xs rest)
      have iht := parseTail_stringifyTail xs f rest (by omega)
      rw [stringifyTail, List.cons_append, List.append_assoc, parseTail_cons]
      simp [ihx, iht]
theorem parseMemberTail_stringifyMemberTail : ∀ (kvs : List (String × Json)) (fuel : Nat)
    (rest : List Char), (stringifyMemberTail kvs).length ≤ fuel →
    parseMemberTail fuel (stringifyMemberTail kvs ++ rest) = some (kvs, rest)
  | [], fuel, rest, hf => by
    cases fuel with
    | zero => simp [stringifyMemberTail] at hf
    | succ f => simp [stringifyMemberTail, parseMemberTail_cons]
  | (k, v) :: kvs, fuel, rest, hf => by
    cases fuel with
    | zero => simp [stringifyMemberTail] at hf
    | succ f =>
      cases f with
      | zero => simp [stringifyMemberTail, quote] at hf
      | succ g =>
        simp only [stringifyMemberTail, quote, List.length_cons, List.length_append] at hf
        have ihv := parseValue_stringifyValue v g (stringifyMemberTail kvs ++ rest) (by omega)
          (stringifyMemberTail_startsWithNumberChar kvs rest)
        have iht := parseMemberTail_stringifyMemberTail kvs (g + 1) rest (by omega)
        have hm := parseMember_quote g k v (stringifyMemberTail kvs ++ rest) ihv
        rw [stringifyMemberTail, List.cons_append, parseMemberTail_cons]
        simp only [List.append_assoc, List.cons_append] at hm ⊢
        simp [hm, iht]
end

/-- The decoder reads the text of `JSON.stringify(v)` back as `v`. -/
theorem Json.parse_stringify (v : Json) : Json.parse (JSON.stringify v) = some v := by
  have h := parseValue_stringifyValue v (2 * (stringifyValue v).length) [] (by omega) rfl
  rw [List.append_nil] at h
  simp only [Json.parse, JSON.stringify, String.length, String.toList]
  rw [h]

theorem Assignment.ofJson_toJson (a : Assignment) : Assignment.ofJson a.toJson = some a := by
  rfl

theorem decodeAssignmentList_map (as : List Assignment) :
    decodeAssignmentList (as.map Assignment.toJson) = some as := by
  induction as with
  | nil => rfl
  | cons a rest ih => simp [decodeAssignmentList, Assignment.ofJson_toJson, ih]

/-! ## Lemmas on the log -/

theorem fetches_append (a b : List Event) : fetches (a ++ b) = fetches a ++ fetches b := by
  induction a with
  | nil => rfl
  | cons e es ih => cases e <;> simp [fetches, ih]

theorem jsonCalls_append (a b : List Event) : jsonCalls (a ++ b) = jsonCalls a + jsonCalls b := by
  induction a with
  | nil => simp [jsonCalls]
  | cons e es ih =>
    cases e <;> simp [jsonCalls, ih]
    omega

theorem consoleErrors_append (a b : List Event) :
    consoleErrors (a ++ b) = consoleErrors a ++ consoleErrors b := by
  induction a with
  | nil => rfl
  | cons e es ih => cases e <;> simp [consoleErrors, ih]

/-! ## The three outcomes of `request` -/

theorem request_fetch_rejects (self : ASCAApiClient) (net : Network) (endpoint : String)
    (options : Option JsObject) (log : List Event) (e : JsError)
    (h : net.fetch log (self.baseUrl ++ endpoint) (requestConfig (options.getD [])) =
      Except.error e) :
    self.request net endpoint options log =
      (Except.error e,
        log ++ [Event.fetch (self.baseUrl ++ endpoint) (requestConfig (options.getD [])),
          Event.consoleError "API Request failed:" e]) := by
  simp [ASCAApiClient.request, requestTry, h]

theorem request_not_ok (self : ASCAApiClient) (net : Network) (endpoint : String)
    (options : Option JsObject) (log : List Event) (r : Response)
    (h : net.fetch log (self.baseUrl ++ endpoint) (requestConfig (options.getD [])) =
      Except.ok r)
    (hok : r.ok = false) :
    self.request net endpoint options log =
      (Except.error (JsError.new (apiErrorMessage r)),
        log ++ [Event.fetch (self.baseUrl ++ endpoint) (requestConfig (options.getD [])),
          Event.consoleError "API Request failed:" (JsError.new (apiErrorMessage r))]) := by
  simp [ASCAApiClient.request, requestTry, h, hok, apiErrorMessage]

theorem request_ok_parsed (self : ASCAApiClient) (net : Network) (endpoint : String)
    (options : Option JsObject) (log : List Event) (r : Response) (v : Json)
    (h : net.fetch log (self.baseUrl ++ endpoint) (requestConfig (options.getD [])) =
      Except.ok r)
    (hok : r.ok = true) (hv : r.json = Except.ok v) :
    self.request net endpoint options log =
      (Except.ok v,
        log ++ [Event.fetch (self.baseUrl ++ endpoint) (requestConfig (options.getD [])),
          Event.json r.status]) := by
  simp [ASCAApiClient.request, requestTry, h, hok, hv]

theorem request_ok_malformed (self : ASCAApiClient) (net : Network) (endpoint : String)
    (options : Option JsObject) (log : List Event) (r : Response) (e : JsError)
    (h : net.fetch log (self.baseUrl ++ endpoint) (requestConfig (options.getD [])) =
      Except.ok r)
    (hok : r.ok = true) (hv : r.json = Except.error e) :
    self.request net endpoint options log =
      (Except.error e,
        log ++ [Event.fetch (self.baseUrl ++ endpoint) (requestConfig (options.getD [])),
          Event.json r.status, Event.consoleError "API Request failed:" e]) := by
  simp [ASCAApiClient.request, requestTry, h, hok, hv]

theorem Operation.run_eq_request (self : ASCAApiClient) (net : Network) (op : Operation) :
    op.run self net = self.request net op.endpoint op.options := by
  cases op <;> rfl

/-- Every call of `request` adds exactly one call of `fetch` to the log. -/
theorem request_fetches (self : ASCAApiClient) (net : Network) (endpoint : String)
    (options : Option JsObject) (log : List Event) :
    fetches (self.request net endpoint options log).2 =
      fetches log ++ [(self.baseUrl ++ endpoint, requestConfig (options.getD []))] := by
  cases hf : net.fetch log (self.baseUrl ++ endpoint) (requestConfig (options.getD [])) with
  | error e =>
    rw [request_fetch_rejects self net endpoint options log e hf]
    simp [fetches_append, fetches]
  | ok r =>
    cases hok : r.ok with
    | false =>
      rw [request_not_ok self net endpoint options log r hf hok]
      simp [fetches_append, fetches]
    | true =>
      cases hj : r.json with
      | error e =>
        rw [request_ok_malformed self net endpoint options log r e hf hok hj]
        simp [fetches_append, fetches]
      | ok v =>
        rw [request_ok_parsed self net endpoint options log r v hf hok hj]
        simp [fetches_append, fetches]

theorem requestConfig_nil :
    requestConfig [] = [("headers", Json.obj [("Content-Type", Json.str "application/json")])] := by
  rfl

theorem requestConfig_post (body : String) :
    requestConfig [("method", Json.str "POST"), ("body", Json.str body)] =
      [("headers", Json.obj [("Content-Type", Json.str "application/json")]),
        ("method", Json.str "POST"), ("body", Json.str body)] := by
  simp [requestConfig, JsObject.spread, JsObject.set, JsObject.get, spreadSource]

theorem Response.ok_eq_false (r : Response) (h : ¬ (200 ≤ r.status ∧ r.status ≤ 299)) :
    r.ok = false := by
  simp only [Response.ok, Bool.and_eq_false_iff, decide_eq_false_iff_not]
  by_cases h1 : 200 ≤ r.status
  · exact Or.inr (fun h2 => h ⟨h1, h2⟩)
  · exact Or.inl h1

theorem Response.ok_eq_true (r : Response) (h : 200 ≤ r.status ∧ r.status ≤ 299) :
    r.ok = true := by
  simp [Response.ok, h.1, h.2]

theorem requestLines_append (a b : List Event) :
    requestLines (a ++ b) = requestLines a ++ requestLines b := by
  simp [requestLines, fetches_append]

/-- The calls of `fetch` after `n` calls of `call`, when each adds the call `sent`. -/
theorem repeatCall_fetches (call : Async Json) (sent : String × JsObject)
    (h : ∀ log, fetches (call log).2 = fetches log ++ [sent]) (n : Nat) :
    ∀ log, fetches (repeatCall call n log) = fetches log ++ List.replicate n sent := by
  induction n with
  | zero => intro log; simp [repeatCall]
  | succ n ih =>
    intro log
    rw [repeatCall, ih, h, List.append_assoc, List.replicate_succ]
    rfl

/-! ## The claims on `request` and on the operations -/

/-- C1 (the code does not do this): `request(endpoint, {headers: {"X-Test": "1"}})`
hands `fetch` a config whose `headers` are the caller's object alone. The
merged headers are written first and then replaced when `...options` copies the
caller's `headers` property over them, so `X-Test: 1` is sent and
`Content-Type: application/json` is not. -/
theorem C1_caller_headers_replace_merged (self : ASCAApiClient) (net : Network)
    (endpoint : String) (log : List Event) :
    fetches (self.request net endpoint
        (some [("headers", Json.obj [("X-Test", Json.str "1")])]) log).2 =
      fetches log ++
        [(self.baseUrl ++ endpoint, [("headers", Json.obj [("X-Test", Json.str "1")])])] ∧
    headerOf [("headers", Json.obj [("X-Test", Json.str "1")])] "X-Test" = some (Json.str "1") ∧
    headerOf [("headers", Json.obj [("X-Test", Json.str "1")])] "Content-Type" = none := by
  refine ⟨?_, rfl, rfl⟩
  rw [request_fetches]
  rfl

/-- C2: for every operation, when `fetch` resolves to a response whose status is
outside 200..299, the call rejects with `new Error` of the message
`API Error: <status> <statusText>`; the message contains the decimal status and
ends with the status text; `response.json()` is not called. -/
theorem C2_non_2xx_rejects_with_status (self : ASCAApiClient) (net : Network)
    (op : Operation) (log : List Event) (r : Response)
    (h : net.fetch log (self.baseUrl ++ op.endpoint) (requestConfig (op.options.getD [])) =
      Except.ok r)
    (hs : ¬ (200 ≤ r.status ∧ r.status ≤ 299)) :
    (op.run self net log).1 =
        Except.error (JsError.new
          ("API Error: " ++ toString r.status ++ " " ++ r.statusText)) ∧
      (∃ pre post : String,
        (JsError.new ("API Error: " ++ toString r.status ++ " " ++ r.statusText)).message =
          pre ++ toString r.status ++ post) ∧
      (∃ pre : String,
        (JsError.new ("API Error: " ++ toString r.status ++ " " ++ r.statusText)).message =
          pre ++ r.statusText) ∧
      jsonCalls (op.run self net log).2 = jsonCalls log := by
  rw [Operation.run_eq_request,
    request_not_ok self net op.endpoint op.options log r h (Response.ok_eq_false r hs)]
  refine ⟨rfl, ⟨"API Error: ", " " ++ r.statusText, ?_⟩,
    ⟨"API Error: " ++ toString r.status ++ " ", rfl⟩, ?_⟩
  · simp [JsError.new, String.append_assoc]
  · simp [jsonCalls_append, jsonCalls]

/-- C2 at a concrete input: `healthCheck()` against a server answering 500. -/
theorem C2_non_2xx_rejects_with_status_witness :
    ¬ (200 ≤ serverError.status ∧ serverError.status ≤ 299) ∧
    (Operation.healthCheck.run (ASCAApiClient.new none) (Network.answering serverError) []).1 =
      Except.error (JsError.new "API Error: 500 Internal Server Error") ∧
    jsonCalls
      (Operation.healthCheck.run (ASCAApiClient.new none) (Network.answering serverError) []).2
        = 0 :=
  have h := C2_non_2xx_rejects_with_status (ASCAApiClient.new none)
    (Network.answering serverError) Operation.healthCheck [] serverError rfl (by decide)
  ⟨by decide, h.1, h.2.2.2⟩

/-- C3: for every operation, when `fetch` rejects with the error `e`, the call
rejects with the same `e` and `response.json()` is not called. -/
theorem C3_transport_error_propagates (self : ASCAApiClient) (net : Network)
    (op : Operation) (log : List Event) (e : JsError)
    (h : net.fetch log (self.baseUrl ++ op.endpoint) (requestConfig (op.options.getD [])) =
      Except.error e) :
    (op.run self net log).1 = Except.error e ∧
      jsonCalls (op.run self net log).2 = jsonCalls log := by
  rw [Operation.run_eq_request, request_fetch_rejects self net op.endpoint op.options log e h]
  exact ⟨rfl, by simp [jsonCalls_append, jsonCalls]⟩

/-- C3 at a concrete input: `healthCheck()` when the server cannot be reached. -/
theorem C3_transport_error_propagates_witness :
    (Operation.healthCheck.run (ASCAApiClient.new none) (Network.failing failedToFetch) []).1 =
      Except.error failedToFetch ∧
    jsonCalls
      (Operation.healthCheck.run (ASCAApiClient.new none) (Network.failing failedToFetch) []).2
        = 0 :=
  C3_transport_error_propagates (ASCAApiClient.new none) (Network.failing failedToFetch)
    Operation.healthCheck [] failedToFetch rfl

/-- C4: for every operation, when `fetch` resolves to a response with a status in
200..299 whose body parses as `v`, the call resolves to `v` itself, whatever `v`
is; it calls `response.json()` once and logs no error. -/
theorem C4_success_resolves_to_body (self : ASCAApiClient) (net : Network)
    (op : Operation) (log : List Event) (r : Response) (v : Json)
    (h : net.fetch log (self.baseUrl ++ op.endpoint) (requestConfig (op.options.getD [])) =
      Except.ok r)
    (hs : 200 ≤ r.status ∧ r.status ≤ 299) (hv : r.json = Except.ok v) :
    op.run self net log =
      (Except.ok v,
        log ++ [Event.fetch (self.baseUrl ++ op.endpoint) (requestConfig (op.options.getD [])),
          Event.json r.status]) := by
  rw [Operation.run_eq_request,
    request_ok_parsed self net op.endpoint op.options log r v h (Response.ok_eq_true r hs) hv]

/-- C4 at the scenario of the specification: `analyzeWorkload` on the three
sample assignments against a backend answering the workload summary. -/
theorem C4_success_resolves_to_body_witness :
    ((Operation.analyzeWorkload (Json.arr (getSampleAssignments.map Assignment.toJson))).run
        (ASCAApiClient.new none) (Network.answering workloadResponse) []).1 =
      Except.ok workloadSummary :=
  congrArg Prod.fst
    (C4_success_resolves_to_body (ASCAApiClient.new none) (Network.answering workloadResponse)
      (Operation.analyzeWorkload (Json.arr (getSampleAssignments.map Assignment.toJson))) []
      workloadResponse workloadSummary rfl (by decide) rfl)

/-- The method and the URL that a POST operation adds to the log. -/
theorem request_post_line (self : ASCAApiClient) (net : Network) (endpoint body : String)
    (log : List Event) :
    requestLines (self.request net endpoint
        (some [("method", Json.str "POST"), ("body", Json.str body)]) log).2 =
      requestLines log ++ [(some "POST", self.baseUrl ++ endpoint)] := by
  simp only [requestLines, request_fetches, Option.getD_some, requestConfig_post,
    List.map_append, List.map_cons, List.map_nil]
  rfl

/-- C7: each of the seven operations calls `fetch` with the URL `baseUrl` followed
by its path, unchanged, and with the method of the table: `healthCheck` sends GET
to `/` with a config that holds the headers alone (no method, no body), the six
others send POST to their paths; the seven paths are pairwise distinct. -/
theorem C7_operation_urls_and_methods (self : ASCAApiClient) (net : Network)
    (log : List Event) :
    fetches (self.healthCheck net log).2 =
        fetches log ++ [(self.baseUrl ++ "/",
          [("headers", Json.obj [("Content-Type", Json.str "application/json")])])] ∧
      requestLines (self.healthCheck net log).2 =
        requestLines log ++ [(some "GET", self.baseUrl ++ "/")] ∧
      (∀ a, requestLines (self.analyzeAssignment net a log).2 =
        requestLines log ++ [(some "POST", self.baseUrl ++ "/api/analyze-assignment")]) ∧
      (∀ a, requestLines (self.analyzeWorkload net a log).2 =
        requestLines log ++ [(some "POST", self.baseUrl ++ "/api/analyze-workload")]) ∧
      (∀ a p, requestLines (self.createSchedule net a p log).2 =
        requestLines log ++ [(some "POST", self.baseUrl ++ "/api/create-schedule")]) ∧
      (∀ a p w, requestLines (self.wellnessCheck net a p w log).2 =
        requestLines log ++ [(some "POST", self.baseUrl ++ "/api/wellness-check")]) ∧
      (∀ a p w, requestLines (self.fullAnalysis net a p w log).2 =
        requestLines log ++ [(some "POST", self.baseUrl ++ "/api/full-analysis")]) ∧
      (∀ c t, requestLines (self.suggestBreak net c t log).2 =
        requestLines log ++ [(some "POST", self.baseUrl ++ "/api/suggest-break")]) ∧
      List.Nodup ["/", "/api/analyze-assignment", "/api/analyze-workload",
        "/api/create-schedule", "/api/wellness-check", "/api/full-analysis",
        "/api/suggest-break"] := by
  refine ⟨?_, ?_, ?_, ?_, ?_, ?_, ?_, ?_, by decide⟩
  · rw [ASCAApiClient.healthCheck, request_fetches]
    rfl
  · rw [ASCAApiClient.healthCheck, requestLines, request_fetches]
    simp only [List.map_append, List.map_cons, List.map_nil]
    rfl
  · intro a
    exact request_post_line self net _ _ log
  · intro a
    exact request_post_line self net _ _ log
  · intro a p
    exact request_post_line self net _ _ log
  · intro a p w
    exact request_post_line self net _ _ log
  · intro a p w
    exact request_post_line self net _ _ log
  · intro c t
    exact request_post_line self net _ _ log

/-- C8: every call of `request`, and so every call of an operation, adds exactly
one call of `fetch` to the log, whatever the network does; `n` calls of
`healthCheck()` one after the other add `n` calls of `fetch`, each a GET of
`baseUrl` followed by `/`. -/
theorem C8_one_fetch_per_call (self : ASCAApiClient) (net : Network) :
    (∀ endpoint options log,
      fetches (self.request net endpoint options log).2 =
        fetches log ++ [(self.baseUrl ++ endpoint, requestConfig (options.getD []))]) ∧
    (∀ (op : Operation) log,
      fetches (op.run self net log).2 = fetches log ++ [op.sent self]) ∧
    (∀ n log,
      fetches (repeatCall (self.healthCheck net) n log) =
        fetches log ++ List.replicate n (self.baseUrl ++ "/",
          [("headers", Json.obj [("Content-Type", Json.str "application/json")])])) ∧
    (∀ n log,
      requestLines (repeatCall (self.healthCheck net) n log) =
        requestLines log ++ List.replicate n (some "GET", self.baseUrl ++ "/")) := by
  have hc : ∀ log, fetches (self.healthCheck net log).2 =
      fetches log ++ [(self.baseUrl ++ "/",
        [("headers", Json.obj [("Content-Type", Json.str "application/json")])])] := by
    intro log
    rw [ASCAApiClient.healthCheck, request_fetches]
    rfl
  refine ⟨fun endpoint options log => request_fetches self net endpoint options log, ?_,
    fun n log => repeatCall_fetches _ _ hc n log, ?_⟩
  · intro op log
    rw [Operation.run_eq_request, request_fetches]
    rfl
  · intro n log
    rw [requestLines, repeatCall_fetches _ _ hc n log]
    simp only [List.map_append, List.map_replicate]
    rfl

/-- C9: the outcome of `request` is the outcome of its `try` block; when that is
a rejection with the error `e`, whichever way it arose, `console.error` is
called once more than before, with `e`, and the call rejects with `e`; when it
is a value, `console.error` is not called. -/
theorem C9_failure_logged_once_and_rethrown (self : ASCAApiClient) (net : Network)
    (endpoint : String) (options : Option JsObject) (log : List Event) :
    (self.request net endpoint options log).1 =
        (requestTry net (self.baseUrl ++ endpoint) (requestConfig (options.getD [])) log).1 ∧
      (∀ e, (requestTry net (self.baseUrl ++ endpoint)
            (requestConfig (options.getD [])) log).1 = Except.error e →
        (self.request net endpoint options log).1 = Except.error e ∧
        consoleErrors (self.request net endpoint options log).2 = consoleErrors log ++ [e]) ∧
      (∀ v, (self.request net endpoint options log).1 = Except.ok v →
        consoleErrors (self.request net endpoint options log).2 = consoleErrors log) := by
  cases hf : net.fetch log (self.baseUrl ++ endpoint) (requestConfig (options.getD [])) with
  | error e =>
    rw [request_fetch_rejects self net endpoint options log e hf]
    simp [requestTry, hf, consoleErrors_append, consoleErrors]
  | ok r =>
    cases hok : r.ok with
    | false =>
      rw [request_not_ok self net endpoint options log r hf hok]
      simp [requestTry, hf, hok, consoleErrors_append, consoleErrors, apiErrorMessage]
    | true =>
      cases hj : r.json with
      | error e =>
        rw [request_ok_malformed self net endpoint options log r e hf hok hj]
        simp [requestTry, hf, hok, hj, consoleErrors_append, consoleErrors]
      | ok v =>
        rw [request_ok_parsed self net endpoint options log r v hf hok hj]
        simp [requestTry, hf, hok, hj, consoleErrors_append, consoleErrors]

/-- C10: for every operation, when `fetch` resolves to a response with a status in
200..299 and `response.json()` rejects with the error `e` (the body is not
JSON), the call rejects with the same `e`: the status alone does not make the
call resolve. -/
theorem C10_malformed_body_rejects (self : ASCAApiClient) (net : Network)
    (op : Operation) (log : List Event) (r : Response) (e : JsError)
    (h : net.fetch log (self.baseUrl ++ op.endpoint) (requestConfig (op.options.getD [])) =
      Except.ok r)
    (hs : 200 ≤ r.status ∧ r.status ≤ 299) (hv : r.json = Except.error e) :
    (op.run self net log).1 = Except.error e ∧
      ∀ v, (op.run self net log).1 ≠ Except.ok v := by
  rw [Operation.run_eq_request,
    request_ok_malformed self net op.endpoint op.options log r e h (Response.ok_eq_true r hs) hv]
  exact ⟨rfl, fun v hv' => by cases hv'⟩

/-- C10 at a concrete input: `healthCheck()` against a server answering 200 with
an empty body. -/
theorem C10_malformed_body_rejects_witness :
    (200 ≤ emptyBody.status ∧ emptyBody.status ≤ 299) ∧
    (Operation.healthCheck.run (ASCAApiClient.new none) (Network.answering emptyBody) []).1 =
      Except.error { name := "SyntaxError", message := "Unexpected end of JSON input" } :=
  ⟨by decide,
    (C10_malformed_body_rejects (ASCAApiClient.new none) (Network.answering emptyBody)
      Operation.healthCheck [] emptyBody
      { name := "SyntaxError", message := "Unexpected end of JSON input" } rfl (by decide)
      rfl).1⟩

/-- The call of `fetch` that a POST operation with the body text `body` adds. -/
theorem request_post_fetches (self : ASCAApiClient) (net : Network) (endpoint body : String)
    (log : List Event) :
    fetches (self.request net endpoint
        (some [("method", Json.str "POST"), ("body", Json.str body)]) log).2 =
      fetches log ++ [(self.baseUrl ++ endpoint,
        [("headers", Json.obj [("Content-Type", Json.str "application/json")]),
          ("method", Json.str "POST"), ("body", Json.str body)])] := by
  rw [request_fetches, Option.getD_some, requestConfig_post]

/-- C5: for every sequence `as` of assignments and on every network,
`analyzeWorkload(as)` adds exactly one call of `fetch`, to `baseUrl` followed by
`/api/analyze-workload`, with the method POST and a body that is JSON text; the
text decodes to the plain array of the assignments, and reading that array back
gives `as` itself: same length, same elements, same order. -/
theorem C5_analyzeWorkload_posts_plain_array (self : ASCAApiClient) (net : Network)
    (as : List Assignment) (log : List Event) :
    ∃ body : String,
      fetches (self.analyzeWorkload net (Json.arr (as.map Assignment.toJson)) log).2 =
        fetches log ++ [(self.baseUrl ++ "/api/analyze-workload",
          [("headers", Json.obj [("Content-Type", Json.str "application/json")]),
            ("method", Json.str "POST"), ("body", Json.str body)])] ∧
      Json.parse body = some (Json.arr (as.map Assignment.toJson)) ∧
      (Json.parse body).bind decodeAssignments = some as := by
  refine ⟨JSON.stringify (Json.arr (as.map Assignment.toJson)),
    request_post_fetches self net _ _ log, Json.parse_stringify _, ?_⟩
  rw [Json.parse_stringify]
  exact decodeAssignmentList_map as

/-- The config that an operation hands to `fetch` holds the default headers. -/
theorem Operation.sent_headers (self : ASCAApiClient) (op : Operation) :
    JsObject.get (op.sent self).2 "headers" =
      some (Json.obj [("Content-Type", Json.str "application/json")]) := by
  cases op <;> simp only [Operation.sent, Operation.options, Option.getD_some, Option.getD_none,
    requestConfig_post, requestConfig_nil] <;> rfl

/-- C12: each of the seven operations hands `fetch` a config whose `headers` are
the object with the single entry `Content-Type: application/json`: it holds no
`Authorization` header and no header of any other name. -/
theorem C12_operations_send_only_content_type (self : ASCAApiClient) (net : Network)
    (op : Operation) (log : List Event) :
    fetches (op.run self net log).2 = fetches log ++ [op.sent self] ∧
      JsObject.get (op.sent self).2 "headers" =
        some (Json.obj [("Content-Type", Json.str "application/json")]) ∧
      headerOf (op.sent self).2 "Content-Type" = some (Json.str "application/json") ∧
      headerOf (op.sent self).2 "Authorization" = none ∧
      ∀ name, name ≠ "Content-Type" → headerOf (op.sent self).2 name = none := by
  have hh := Operation.sent_headers self op
  refine ⟨?_, hh, ?_, ?_, ?_⟩
  · rw [Operation.run_eq_request, request_fetches]
    rfl
  · simp [headerOf, hh, JsObject.get]
  · simp [headerOf, hh, JsObject.get]
  · intro name hn
    simp [headerOf, hh, JsObject.get, Ne.symm hn]

/-- The config of a call of `request` whose options hold `headers` alone. -/
theorem requestConfig_headers (x : Json) :
    requestConfig [("headers", x)] = [("headers", x)] := by
  simp [requestConfig, JsObject.spread, JsObject.set]

/-- C13: for every endpoint and every headers object `h` that defines
`Content-Type` with the value `v`, `request(endpoint, {headers: h})` hands `fetch`
a config whose `Content-Type` header is `v`: the caller's header is sent, not the
default. -/
theorem C13_caller_content_type_wins (self : ASCAApiClient) (net : Network)
    (endpoint : String) (h : JsObject) (v : Json) (log : List Event)
    (hv : JsObject.get h "Content-Type" = some v) :
    ∃ config,
      fetches (self.request net endpoint (some [("headers", Json.obj h)]) log).2 =
        fetches log ++ [(self.baseUrl ++ endpoint, config)] ∧
      headerOf config "Content-Type" = some v := by
  refine ⟨[("headers", Json.obj h)], ?_, ?_⟩
  · rw [request_fetches, Option.getD_some, requestConfig_headers]
  · simp [headerOf, JsObject.get, hv]

/-- C13 at a concrete input: the caller sends `Content-Type: text/plain`. -/
theorem C13_caller_content_type_wins_witness :
    ∃ config,
      fetches ((ASCAApiClient.new none).request (Network.answering workloadResponse) "/"
        (some [("headers", Json.obj [("Content-Type", Json.str "text/plain")])]) []).2 =
        [("http://localhost:8080/", config)] ∧
      headerOf config "Content-Type" = some (Json.str "text/plain") :=
  C13_caller_content_type_wins (ASCAApiClient.new none) (Network.answering workloadResponse)
    "/" [("Content-Type", Json.str "text/plain")] (Json.str "text/plain") [] rfl

/-- The calls of `fetch` of a sequence of operations on one client. -/
theorem runAll_fetches (self : ASCAApiClient) (net : Network) (ops : List Operation) :
    ∀ log, fetches (runAll self net ops log) =
      fetches log ++ ops.map (fun op => op.sent self) := by
  induction ops with
  | nil => intro log; simp [runAll]
  | cons op ops ih =>
    intro log
    rw [runAll, ih, Operation.run_eq_request, request_fetches, List.append_assoc]
    rfl

/-- C14: a client constructed with no argument has the base URL
`http://localhost:8080`, a client constructed with `u` has the base URL `u`, and
after any sequence of operations, whatever their outcomes, every call of `fetch`
made by the client is to the base URL of the construction followed by the
operation's path. -/
theorem C14_base_url_fixed_at_construction (net : Network) (u : String)
    (ops : List Operation) (log : List Event) :
    (ASCAApiClient.new none).baseUrl = "http://localhost:8080" ∧
      (ASCAApiClient.new (some u)).baseUrl = u ∧
      (fetches (runAll (ASCAApiClient.new (some u)) net ops log)).map Prod.fst =
        (fetches log).map Prod.fst ++ ops.map (fun op => u ++ op.endpoint) ∧
      (fetches (runAll (ASCAApiClient.new none) net ops log)).map Prod.fst =
        (fetches log).map Prod.fst ++
          ops.map (fun op => "http://localhost:8080" ++ op.endpoint) := by
  refine ⟨rfl, rfl, ?_, ?_⟩ <;>
  · rw [runAll_fetches, List.map_append, List.map_map]
    rfl

/-- C16: for every assignment `a`, `analyzeAssignment(a)` posts a body that decodes
to the object of `a` itself, not wrapped in an array or in another object;
reading it back gives `a` with its five fields. -/
theorem C16_analyzeAssignment_posts_bare_assignment (self : ASCAApiClient) (net : Network)
    (a : Assignment) (log : List Event) :
    ∃ body : String,
      fetches (self.analyzeAssignment net a.toJson log).2 =
        fetches log ++ [(self.baseUrl ++ "/api/analyze-assignment",
          [("headers", Json.obj [("Content-Type", Json.str "application/json")]),
            ("method", Json.str "POST"), ("body", Json.str body)])] ∧
      Json.parse body =
        some (Json.obj [("id", Json.str a.id), ("title", Json.str a.title),
          ("description", Json.str a.description), ("due_date", Json.str a.due_date),
          ("course", Json.str a.course)]) ∧
      (Json.parse body).bind Assignment.ofJson = some a := by
  refine ⟨JSON.stringify a.toJson, request_post_fetches self net _ _ log,
    Json.parse_stringify _, ?_⟩
  rw [Json.parse_stringify]
  exact Assignment.ofJson_toJson a

/-! ## The claims on the activity feed -/

/-- The markup of an activity of one of the five agents of the table is built
without an error. -/
theorem activityMarkup_known (agent message time : String)
    (h : agent ∈ ["assignment", "research", "study", "transfer", "wellness"]) :
    ∃ markup, activityMarkup (lookupAgentIcon agent) message time = Except.ok markup := by
  simp only [List.mem_cons, List.mem_singleton, List.not_mem_nil, or_false] at h
  rcases h with rfl | rfl | rfl | rfl | rfl <;> exact ⟨_, rfl⟩

/-- C19 (the code does not do this): the callback of the 1500 ms timer of
`startCollaborationDemo` calls `addAgentActivity('collaboration', ...)`; the table
`agentIcons` has no entry `collaboration`, so on every existing feed the call
throws a `TypeError` while it builds the markup, before anything is inserted. -/
theorem C19_collaboration_activity_throws (items : List Element) :
    startCollaborationDemo.delay = 1500 ∧
      lookupAgentIcon "collaboration" = AgentData.undefined ∧
      startCollaborationDemo.callback (some items) =
        Except.error (typeError "Cannot read properties of undefined (reading 'color')") ∧
      addAgentActivity "collaboration"
          "All agents coordinated to optimize your study schedule" "Just now" (some items) =
        Except.error (typeError "Cannot read properties of undefined (reading 'color')") := by
  refine ⟨rfl, rfl, rfl, rfl⟩

/-- C20: for every call of `addAgentActivity` with one of the five agents of the
table on an existing feed, the call returns normally and the new element is the
first of the feed; behind it stand the earlier elements in their order, all of
them when the feed held fewer than 5, all but the last when it held 5 or more;
so a feed that held `n` elements, `n` at most 5, holds `min (n + 1) 5` after the
call, never more than 5. -/
theorem C20_feed_newest_first_at_most_five (agent message time : String)
    (items : List Element)
    (h : agent ∈ ["assignment", "research", "study", "transfer", "wellness"]) :
    ∃ item rest,
      addAgentActivity agent message time (some items) = Except.ok (some (item :: rest)) ∧
      item.className = "activity-item pl-4 py-3" ∧
      rest = (if 5 ≤ items.length then items.dropLast else items) ∧
      (items.length ≤ 5 →
        (item :: rest).length = min (items.length + 1) 5 ∧ (item :: rest).length ≤ 5) := by
  obtain ⟨markup, hm⟩ := activityMarkup_known agent message time h
  by_cases h5 : 5 ≤ items.length
  · have hne : items ≠ [] := by
      intro h0
      rw [h0] at h5
      simp at h5
    refine ⟨{ className := "activity-item pl-4 py-3", innerHTML := markup }, items.dropLast,
      ?_, rfl, by rw [if_pos h5], ?_⟩
    · have hlen : (({ className := "activity-item pl-4 py-3", innerHTML := markup } : Element)
          :: items).length > 5 := by
        simp only [List.length_cons]
        omega
      simp only [addAgentActivity, hm, if_pos hlen, List.dropLast_cons_of_ne_nil hne]
    · intro hle
      simp only [List.length_cons, List.length_dropLast]
      omega
  · refine ⟨{ className := "activity-item pl-4 py-3", innerHTML := markup }, items,
      ?_, rfl, by rw [if_neg h5], ?_⟩
    · have hlen : ¬ (({ className := "activity-item pl-4 py-3", innerHTML := markup } : Element)
          :: items).length > 5 := by
        simp only [List.length_cons]
        omega
      simp only [addAgentActivity, hm, if_neg hlen]
    · intro _
      simp only [List.length_cons]
      omega

/-- C20 at a concrete input: a wellness activity on a feed that holds 5 elements. -/
theorem C20_feed_newest_first_at_most_five_witness :
    ∃ item rest,
      addAgentActivity "wellness" "Suggested a 10-minute break" "15 minutes ago"
        (some (List.replicate 5 { className := "activity-item pl-4 py-3", innerHTML := "" })) =
          Except.ok (some (item :: rest)) ∧
      item.className = "activity-item pl-4 py-3" ∧
      rest = List.replicate 4 { className := "activity-item pl-4 py-3", innerHTML := "" } ∧
      (item :: rest).length = 5 := by
  obtain ⟨item, rest, h1, h2, h3, h4⟩ :=
    C20_feed_newest_first_at_most_five "wellness" "Suggested a 10-minute break"
      "15 minutes ago"
      (List.replicate 5 { className := "activity-item pl-4 py-3", innerHTML := "" })
      (by decide)
  exact ⟨item, rest, h1, h2, h3, (h4 (by decide)).1⟩

/-! ## The claims on the actions and the modals of the page -/

theorem String.join_cons_eq (x : String) (xs : List String) :
    String.join (x :: xs) = x ++ String.join xs := by
  apply String.ext
  simp [String.data_join]

theorem analyzeAssignmentsWithBackend_failure (net : Network) (page : Page) (e : JsError)
    (h : (apiClient.analyzeWorkload net sampleAssignmentsJson page.log).1 = Except.error e) :
    analyzeAssignmentsWithBackend net page =
      (Except.ok (),
        { log := (apiClient.analyzeWorkload net sampleAssignmentsJson page.log).2,
          ui := page.ui ++
            [UiEvent.notification "🤖 Analyzing assignments with AI agents..." "info",
              UiEvent.notification backendNotRunning "error", UiEvent.consoleError e] }) := by
  cases hx : apiClient.analyzeWorkload net sampleAssignmentsJson page.log with
  | mk r log =>
    rw [hx] at h
    simp only at h
    subst h
    simp [analyzeAssignmentsWithBackend, analyzeAssignmentsTry, showNotification, hx, actionCatch,
      consoleError]

theorem createScheduleWithBackend_failure (net : Network) (page : Page) (e : JsError)
    (h : (apiClient.createSchedule net sampleAssignmentsValue samplePreferencesValue
      page.log).1 = Except.error e) :
    createScheduleWithBackend net page =
      (Except.ok (),
        { log := (apiClient.createSchedule net sampleAssignmentsValue samplePreferencesValue
            page.log).2,
          ui := page.ui ++
            [UiEvent.notification "📅 Creating optimized schedule with AI..." "info",
              UiEvent.notification backendNotRunning "error", UiEvent.consoleError e] }) := by
  cases hx : apiClient.createSchedule net sampleAssignmentsValue samplePreferencesValue
      page.log with
  | mk r log =>
    rw [hx] at h
    simp only at h
    subst h
    simp [createScheduleWithBackend, createScheduleTry, showNotification, hx, actionCatch,
      consoleError]

theorem performFullAnalysis_failure (net : Network) (page : Page) (e : JsError)
    (h : (apiClient.fullAnalysis net sampleAssignmentsValue samplePreferencesValue
      sampleWellnessValue page.log).1 = Except.error e) :
    performFullAnalysis net page =
      (Except.ok (),
        { log := (apiClient.fullAnalysis net sampleAssignmentsValue samplePreferencesValue
            sampleWellnessValue page.log).2,
          ui := page.ui ++
            [UiEvent.notification "🤖 Running full multi-agent analysis..." "info",
              UiEvent.notification backendNotRunning "error", UiEvent.consoleError e] }) := by
  cases hx : apiClient.fullAnalysis net sampleAssignmentsValue samplePreferencesValue
      sampleWellnessValue page.log with
  | mk r log =>
    rw [hx] at h
    simp only at h
    subst h
    simp [performFullAnalysis, performFullAnalysisTry, showNotification, hx, actionCatch,
      consoleError]

theorem modals_append (a b : List UiEvent) : modals (a ++ b) = modals a ++ modals b := by
  induction a with
  | nil => rfl
  | cons e es ih => cases e <;> simp [modals, ih]

theorem notifications_append (a b : List UiEvent) :
    notifications (a ++ b) = notifications a ++ notifications b := by
  induction a with
  | nil => rfl
  | cons e es ih => cases e <;> simp [notifications, ih]


/-- C15: for each of the three actions on its own, when its gateway call rejects
with an error, whatever the error is and whatever the other gateway calls would
do, the action returns normally, shows after its `info` notification exactly
one more notification, of the type `error` and with the fixed text that the
backend is not running, and opens no modal. -/
theorem C15_gateway_failure_same_notification (net : Network) (page : Page) :
    (∀ e, (apiClient.analyzeWorkload net sampleAssignmentsJson page.log).1 = Except.error e →
      (analyzeAssignmentsWithBackend net page).1 = Except.ok () ∧
      notifications (analyzeAssignmentsWithBackend net page).2.ui =
        notifications page.ui ++
          [("🤖 Analyzing assignments with AI agents...", "info"),
            ("❌ Backend not running. Start with: cd backend && python main.py", "error")] ∧
      modals (analyzeAssignmentsWithBackend net page).2.ui = modals page.ui) ∧
    (∀ e, (apiClient.createSchedule net sampleAssignmentsValue samplePreferencesValue
        page.log).1 = Except.error e →
      (createScheduleWithBackend net page).1 = Except.ok () ∧
      notifications (createScheduleWithBackend net page).2.ui =
        notifications page.ui ++
          [("📅 Creating optimized schedule with AI...", "info"),
            ("❌ Backend not running. Start with: cd backend && python main.py", "error")] ∧
      modals (createScheduleWithBackend net page).2.ui = modals page.ui) ∧
    (∀ e, (apiClient.fullAnalysis net sampleAssignmentsValue samplePreferencesValue
        sampleWellnessValue page.log).1 = Except.error e →
      (performFullAnalysis net page).1 = Except.ok () ∧
      notifications (performFullAnalysis net page).2.ui =
        notifications page.ui ++
          [("🤖 Running full multi-agent analysis...", "info"),
            ("❌ Backend not running. Start with: cd backend && python main.py", "error")] ∧
      modals (performFullAnalysis net page).2.ui = modals page.ui) := by
  refine ⟨fun e h => ?_, fun e h => ?_, fun e h => ?_⟩
  · rw [analyzeAssignmentsWithBackend_failure net page e h]
    simp [notifications_append, modals_append, notifications, modals, backendNotRunning]
  · rw [createScheduleWithBackend_failure net page e h]
    simp [notifications_append, modals_append, notifications, modals, backendNotRunning]
  · rw [performFullAnalysis_failure net page e h]
    simp [notifications_append, modals_append, notifications, modals, backendNotRunning]

/-- C15 at concrete inputs, one kind of failure for each action: the workload
analysis against a server that answers 500, the schedule on a network where the
schedule endpoint alone cannot be reached, the full analysis against a server
that answers 200 with an empty body. -/
theorem C15_gateway_failure_same_notification_witness :
    notifications (analyzeAssignmentsWithBackend (Network.answering serverError)
        emptyPage).2.ui =
      [("🤖 Analyzing assignments with AI agents...", "info"),
        ("❌ Backend not running. Start with: cd backend && python main.py", "error")] ∧
    ((createScheduleWithBackend
        (Network.downAt "http://localhost:8080/api/create-schedule" failedToFetch
          workloadResponse) emptyPage).1 = Except.ok () ∧
      notifications (createScheduleWithBackend
        (Network.downAt "http://localhost:8080/api/create-schedule" failedToFetch
          workloadResponse) emptyPage).2.ui =
        [("📅 Creating optimized schedule with AI...", "info"),
          ("❌ Backend not running. Start with: cd backend && python main.py", "error")] ∧
      modals (createScheduleWithBackend
        (Network.downAt "http://localhost:8080/api/create-schedule" failedToFetch
          workloadResponse) emptyPage).2.ui = []) ∧
    notifications (performFullAnalysis (Network.answering emptyBody) emptyPage).2.ui =
      [("🤖 Running full multi-agent analysis...", "info"),
        ("❌ Backend not running. Start with: cd backend && python main.py", "error")] :=
  ⟨((C15_gateway_failure_same_notification (Network.answering serverError) emptyPage).1
      (JsError.new "API Error: 500 Internal Server Error") rfl).2.1,
    (C15_gateway_failure_same_notification
      (Network.downAt "http://localhost:8080/api/create-schedule" failedToFetch
        workloadResponse) emptyPage).2.1 failedToFetch rfl,
    ((C15_gateway_failure_same_notification (Network.answering emptyBody) emptyPage).2.2
      { name := "SyntaxError", message := "Unexpected end of JSON input" } rfl).2.1⟩

/-! ## The actions on an answer that resolves -/

theorem analyzeAssignmentsWithBackend_unsuccessful (net : Network) (page : Page) (o : JsObject)
    (h : (apiClient.analyzeWorkload net sampleAssignmentsJson page.log).1 =
      Except.ok (Json.obj o))
    (hs : truthy (JsObject.get o "success") = false) :
    analyzeAssignmentsWithBackend net page =
      (Except.ok (),
        { log := (apiClient.analyzeWorkload net sampleAssignmentsJson page.log).2,
          ui := page.ui ++
            [UiEvent.notification "🤖 Analyzing assignments with AI agents..." "info"] }) := by
  cases hx : apiClient.analyzeWorkload net sampleAssignmentsJson page.log with
  | mk r log =>
    rw [hx] at h
    simp only at h
    subst h
    simp [analyzeAssignmentsWithBackend, analyzeAssignmentsTry, showNotification, hx, getProp, hs]

theorem createScheduleWithBackend_unsuccessful (net : Network) (page : Page) (o : JsObject)
    (h : (apiClient.createSchedule net sampleAssignmentsValue samplePreferencesValue
      page.log).1 = Except.ok (Json.obj o))
    (hs : truthy (JsObject.get o "success") = false) :
    createScheduleWithBackend net page =
      (Except.ok (),
        { log := (apiClient.createSchedule net sampleAssignmentsValue samplePreferencesValue
            page.log).2,
          ui := page.ui ++
            [UiEvent.notification "📅 Creating optimized schedule with AI..." "info"] }) := by
  cases hx : apiClient.createSchedule net sampleAssignmentsValue samplePreferencesValue
      page.log with
  | mk r log =>
    rw [hx] at h
    simp only at h
    subst h
    simp [createScheduleWithBackend, createScheduleTry, showNotification, hx, getProp, hs]

theorem performFullAnalysis_unsuccessful (net : Network) (page : Page) (o : JsObject)
    (h : (apiClient.fullAnalysis net sampleAssignmentsValue samplePreferencesValue
      sampleWellnessValue page.log).1 = Except.ok (Json.obj o))
    (hs : truthy (JsObject.get o "success") = false) :
    performFullAnalysis net page =
      (Except.ok (),
        { log := (apiClient.fullAnalysis net sampleAssignmentsValue samplePreferencesValue
            sampleWellnessValue page.log).2,
          ui := page.ui ++
            [UiEvent.notification "🤖 Running full multi-agent analysis..." "info"] }) := by
  cases hx : apiClient.fullAnalysis net sampleAssignmentsValue samplePreferencesValue
      sampleWellnessValue page.log with
  | mk r log =>
    rw [hx] at h
    simp only at h
    subst h
    simp [performFullAnalysis, performFullAnalysisTry, showNotification, hx, getProp, hs]

/-- A `success` field that is absent or `false` does not count as true. -/
theorem truthy_absent_or_false (o : JsObject)
    (h : JsObject.get o "success" = none ∨ JsObject.get o "success" = some (Json.bool false)) :
    truthy (JsObject.get o "success") = false := by
  rcases h with h | h <;> rw [h] <;> rfl

/-- C21: for each of the three actions on its own, when its gateway call
resolves to an object whose `success` field is absent or `false`, whatever the
other gateway calls would do, the action returns normally and adds to the page
its `info` notification and nothing else, no further notification and no modal,
and adds to the log nothing beyond what the gateway call recorded: no error is
written to the console by the action. -/
theorem C21_unsuccessful_answer_ends_silently (net : Network) (page : Page) :
    (∀ o : JsObject,
      (apiClient.analyzeWorkload net sampleAssignmentsJson page.log).1 =
        Except.ok (Json.obj o) →
      (JsObject.get o "success" = none ∨ JsObject.get o "success" = some (Json.bool false)) →
      (analyzeAssignmentsWithBackend net page).1 = Except.ok () ∧
      (analyzeAssignmentsWithBackend net page).2.ui = page.ui ++
        [UiEvent.notification "🤖 Analyzing assignments with AI agents..." "info"] ∧
      (analyzeAssignmentsWithBackend net page).2.log =
        (apiClient.analyzeWorkload net sampleAssignmentsJson page.log).2) ∧
    (∀ o : JsObject,
      (apiClient.createSchedule net sampleAssignmentsValue samplePreferencesValue
        page.log).1 = Except.ok (Json.obj o) →
      (JsObject.get o "success" = none ∨ JsObject.get o "success" = some (Json.bool false)) →
      (createScheduleWithBackend net page).1 = Except.ok () ∧
      (createScheduleWithBackend net page).2.ui = page.ui ++
        [UiEvent.notification "📅 Creating optimized schedule with AI..." "info"] ∧
      (createScheduleWithBackend net page).2.log =
        (apiClient.createSchedule net sampleAssignmentsValue samplePreferencesValue
          page.log).2) ∧
    (∀ o : JsObject,
      (apiClient.fullAnalysis net sampleAssignmentsValue samplePreferencesValue
        sampleWellnessValue page.log).1 = Except.ok (Json.obj o) →
      (JsObject.get o "success" = none ∨ JsObject.get o "success" = some (Json.bool false)) →
      (performFullAnalysis net page).1 = Except.ok () ∧
      (performFullAnalysis net page).2.ui = page.ui ++
        [UiEvent.notification "🤖 Running full multi-agent analysis..." "info"] ∧
      (performFullAnalysis net page).2.log =
        (apiClient.fullAnalysis net sampleAssignmentsValue samplePreferencesValue
          sampleWellnessValue page.log).2) := by
  refine ⟨fun o h hs => ?_, fun o h hs => ?_, fun o h hs => ?_⟩
  · rw [analyzeAssignmentsWithBackend_unsuccessful net page o h (truthy_absent_or_false o hs)]
    exact ⟨rfl, rfl, rfl⟩
  · rw [createScheduleWithBackend_unsuccessful net page o h (truthy_absent_or_false o hs)]
    exact ⟨rfl, rfl, rfl⟩
  · rw [performFullAnalysis_unsuccessful net page o h (truthy_absent_or_false o hs)]
    exact ⟨rfl, rfl, rfl⟩

/-- C21 at concrete inputs: the workload analysis against a backend that answers
`{"success": false}`, the schedule on a network where every other endpoint
cannot be reached and the schedule endpoint answers `{"success": false}`, the
full analysis against a backend that answers `{}`. -/
theorem C21_unsuccessful_answer_ends_silently_witness :
    (analyzeAssignmentsWithBackend (Network.answering unsuccessfulResponse) emptyPage).2.ui =
      [UiEvent.notification "🤖 Analyzing assignments with AI agents..." "info"] ∧
    (createScheduleWithBackend
        (Network.upAt "http://localhost:8080/api/create-schedule" failedToFetch
          unsuccessfulResponse) emptyPage).2.ui =
      [UiEvent.notification "📅 Creating optimized schedule with AI..." "info"] ∧
    (performFullAnalysis (Network.answering emptyObjectResponse) emptyPage).2.ui =
      [UiEvent.notification "🤖 Running full multi-agent analysis..." "info"] :=
  ⟨((C21_unsuccessful_answer_ends_silently (Network.answering unsuccessfulResponse)
      emptyPage).1 [("success", Json.bool false)] rfl (Or.inr rfl)).2.1,
    ((C21_unsuccessful_answer_ends_silently
      (Network.upAt "http://localhost:8080/api/create-schedule" failedToFetch
        unsuccessfulResponse) emptyPage).2.1 [("success", Json.bool false)] rfl
      (Or.inr rfl)).2.1,
    ((C21_unsuccessful_answer_ends_silently (Network.answering emptyObjectResponse)
      emptyPage).2.2 [] rfl (Or.inl rfl)).2.1⟩

theorem analysisCompleteMessage_undefined :
    analysisCompleteMessage none =
      Except.error (typeError "Cannot read properties of undefined (reading 'total_assignments')") := by
  rfl

/-- C22: when the backend answers the request of `analyzeAssignmentsWithBackend`
with a status in 200..299 and an object whose `success` is `true` and which has
no `data`, the gateway call resolves to that object, and the action, building
its success notification, throws on `data.total_assignments`; it ends by
showing the `error` notification that the backend is not running, with no
success notification and no modal. -/
theorem C22_success_without_data_reported_as_down (net : Network) (page : Page)
    (r : Response) (o : JsObject)
    (h : net.fetch page.log (apiClient.baseUrl ++ "/api/analyze-workload")
      (requestConfig [("method", Json.str "POST"),
        ("body", Json.str (JSON.stringify sampleAssignmentsJson))]) = Except.ok r)
    (hs : 200 ≤ r.status ∧ r.status ≤ 299)
    (hj : r.json = Except.ok (Json.obj o))
    (hsuccess : JsObject.get o "success" = some (Json.bool true))
    (hdata : JsObject.get o "data" = none) :
    (apiClient.analyzeWorkload net sampleAssignmentsJson page.log).1 = Except.ok (Json.obj o) ∧
      (analyzeAssignmentsWithBackend net page).1 = Except.ok () ∧
      (analyzeAssignmentsWithBackend net page).2.ui = page.ui ++
        [UiEvent.notification "🤖 Analyzing assignments with AI agents..." "info",
          UiEvent.notification
            "❌ Backend not running. Start with: cd backend && python main.py" "error",
          UiEvent.consoleError
            (typeError "Cannot read properties of undefined (reading 'total_assignments')")] ∧
      modals (analyzeAssignmentsWithBackend net page).2.ui = modals page.ui := by
  have hg : apiClient.analyzeWorkload net sampleAssignmentsJson page.log =
      (Except.ok (Json.obj o),
        page.log ++ [Event.fetch (apiClient.baseUrl ++ "/api/analyze-workload")
          (requestConfig [("method", Json.str "POST"),
            ("body", Json.str (JSON.stringify sampleAssignmentsJson))]),
          Event.json r.status]) :=
    request_ok_parsed apiClient net "/api/analyze-workload"
      (some [("method", Json.str "POST"),
        ("body", Json.str (JSON.stringify sampleAssignmentsJson))]) page.log r (Json.obj o) h
      (Response.ok_eq_true r hs) hj
  have ha : (analyzeAssignmentsWithBackend net page) =
      (Except.ok (),
        { log := page.log ++ [Event.fetch (apiClient.baseUrl ++ "/api/analyze-workload")
            (requestConfig [("method", Json.str "POST"),
              ("body", Json.str (JSON.stringify sampleAssignmentsJson))]),
            Event.json r.status],
          ui := page.ui ++
            [UiEvent.notification "🤖 Analyzing assignments with AI agents..." "info",
              UiEvent.notification backendNotRunning "error",
              UiEvent.consoleError (typeError
                "Cannot read properties of undefined (reading 'total_assignments')")] }) := by
    simp [analyzeAssignmentsWithBackend, analyzeAssignmentsTry, showNotification, hg, getProp,
      hsuccess, hdata, truthy, analysisCompleteMessage_undefined, actionCatch, consoleError]
  rw [hg, ha]
  refine ⟨rfl, rfl, rfl, ?_⟩
  simp [modals_append, modals]

/-- C22 at a concrete input: the action on a fresh page against a backend that
answers `{"success": true}`. -/
theorem C22_success_without_data_reported_as_down_witness :
    (apiClient.analyzeWorkload (Network.answering successWithoutData) sampleAssignmentsJson
        emptyPage.log).1 = Except.ok (Json.obj [("success", Json.bool true)]) ∧
    notifications (analyzeAssignmentsWithBackend (Network.answering successWithoutData)
        emptyPage).2.ui =
      [("🤖 Analyzing assignments with AI agents...", "info"),
        ("❌ Backend not running. Start with: cd backend && python main.py", "error")] ∧
    modals (analyzeAssignmentsWithBackend (Network.answering successWithoutData)
        emptyPage).2.ui = [] := by
  have h := C22_success_without_data_reported_as_down (Network.answering successWithoutData)
    emptyPage successWithoutData [("success", Json.bool true)] rfl (by decide) rfl rfl rfl
  refine ⟨h.1, ?_, h.2.2.2⟩
  rw [h.2.2.1]
  rfl


/-! ## The claim on the activity simulation -/

/-- The rounded product of a random value and 5 is at least 0 and below 5. -/
theorem rounded_product_bounds (fl : ℚ → ℚ) (r : ℚ)
    (hzero : ∀ x, |fl x - x| ≤ |0 - x|)
    (hfive : ∀ x, |fl x - x| ≤ |greatestBelowFive - x|)
    (h0 : 0 ≤ r) (h1 : r ≤ greatestBelowOne) :
    0 ≤ fl (r * 5) ∧ fl (r * 5) < 5 := by
  have hx0 : 0 ≤ r * 5 := by linarith
  have hx1 : r * 5 ≤ 5 - 5 / 2 ^ 53 := by
    unfold greatestBelowOne at h1
    linarith
  constructor
  · have h := hzero (r * 5)
    rw [zero_sub, abs_neg, abs_of_nonneg hx0] at h
    have := (abs_le.mp h).1
    linarith
  · have h := hfive (r * 5)
    unfold greatestBelowFive at h
    have hle := (abs_le.mp h).2
    rcases le_total (r * 5) (5 - 1 / 2 ^ 50) with hc | hc
    · rw [abs_of_nonneg (by linarith)] at hle
      have h50 : (0 : ℚ) < 1 / 2 ^ 50 := by positivity
      linarith
    · rw [abs_of_nonpos (by linarith)] at hle
      have e : (1 : ℚ) / 2 ^ 50 = 8 / 2 ^ 53 := by norm_num
      have h53 : (0 : ℚ) < 1 / 2 ^ 53 := by positivity
      rw [e] at hle
      linarith

theorem randomIndex_bounds (fl : ℚ → ℚ) (r : ℚ)
    (hzero : ∀ x, |fl x - x| ≤ |0 - x|)
    (hfive : ∀ x, |fl x - x| ≤ |greatestBelowFive - x|)
    (h0 : 0 ≤ r) (h1 : r ≤ greatestBelowOne) :
    0 ≤ randomIndex fl r ∧ randomIndex fl r ≤ 4 := by
  obtain ⟨ha, hb⟩ := rounded_product_bounds fl r hzero hfive h0 h1
  have hl : ((activities.length : ℕ) : ℚ) = 5 := by
    simp [activities]
  unfold randomIndex
  rw [hl]
  constructor
  · exact Int.floor_nonneg.mpr ha
  · have : ⌊fl (r * 5)⌋ < 5 := Int.floor_lt.mpr (by exact_mod_cast hb)
    omega


/-- A call of `addAgentActivity` for one of the five agents of the table returns
normally, on a page with the feed and on a page without it. -/
theorem addAgentActivity_known_ok (agent message time : String)
    (feed : Option (List Element))
    (h : agent ∈ ["assignment", "research", "study", "transfer", "wellness"]) :
    ∃ after, addAgentActivity agent message time feed = Except.ok after := by
  obtain ⟨markup, hm⟩ := activityMarkup_known agent message time h
  cases feed with
  | none => exact ⟨none, rfl⟩
  | some items =>
    simp only [addAgentActivity, hm]
    split <;> exact ⟨_, rfl⟩

/-- C23: for every random value `r` that is a double-precision number with
`0 ≤ r < 1`, and for the product rounded to a nearest double-precision number,
the index `floor(r * 5)` is one of 0, 1, 2, 3, 4, so `activities[index]` is an
entry of the five-entry array; the agent of that entry has an entry in
`agentIcons`, and the tick of the simulation returns normally. -/
theorem C23_simulation_tick_never_undefined (fl : ℚ → ℚ) (r : ℚ)
    (feed : Option (List Element))
    (hzero : ∀ x, |fl x - x| ≤ |0 - x|)
    (hfive : ∀ x, |fl x - x| ≤ |greatestBelowFive - x|)
    (h0 : 0 ≤ r) (h1 : r ≤ greatestBelowOne) :
    0 ≤ randomIndex fl r ∧ randomIndex fl r ≤ 4 ∧
      ∃ activity entry,
        elementAt activities (randomIndex fl r) = some activity ∧
        lookupAgentIcon activity.agent = AgentData.own entry ∧
        ∃ after, simulationTick fl r feed = Except.ok after := by
  obtain ⟨ha, hb⟩ := randomIndex_bounds fl r hzero hfive h0 h1
  refine ⟨ha, hb, ?_⟩
  unfold simulationTick
  generalize randomIndex fl r = i at ha hb
  interval_cases i
  · exact ⟨_, _, rfl, rfl, addAgentActivity_known_ok _ _ _ feed (by decide)⟩
  · exact ⟨_, _, rfl, rfl, addAgentActivity_known_ok _ _ _ feed (by decide)⟩
  · exact ⟨_, _, rfl, rfl, addAgentActivity_known_ok _ _ _ feed (by decide)⟩
  · exact ⟨_, _, rfl, rfl, addAgentActivity_known_ok _ _ _ feed (by decide)⟩
  · exact ⟨_, _, rfl, rfl, addAgentActivity_known_ok _ _ _ feed (by decide)⟩

/-- C23 at a concrete input: the greatest random value, with the exact product,
on an empty feed. -/
theorem C23_simulation_tick_never_undefined_witness :
    (0 ≤ greatestBelowOne ∧ greatestBelowOne < 1) ∧
    randomIndex id greatestBelowOne ≤ 4 ∧
    ∃ after, simulationTick id greatestBelowOne (some []) = Except.ok after :=
  have h := C23_simulation_tick_never_undefined id greatestBelowOne (some [])
    (fun x => by simp) (fun x => by simp) (by norm_num [greatestBelowOne]) (le_refl _)
  ⟨by norm_num [greatestBelowOne], h.2.1,
    h.2.2.elim fun _ h' => h'.elim fun _ h'' => h''.2.2⟩


/-! ## The claims on the bodies built from the caller's arguments -/

mutual
/-- JSON data passed as an argument is written by `JSON.stringify` as it is. -/
theorem JsValue.serial_ofJson : ∀ j : Json, (JsValue.ofJson j).serial = some j
  | Json.null => rfl
  | Json.bool _ => rfl
  | Json.num _ => rfl
  | Json.str _ => rfl
  | Json.arr xs => by
    rw [JsValue.ofJson, JsValue.serial, serialElements_ofJsonList xs]
  | Json.obj kvs => by
    rw [JsValue.ofJson, JsValue.serial, serialMembers_ofJsonMembers kvs]
theorem serialElements_ofJsonList : ∀ xs : List Json,
    serialElements (JsValue.ofJsonList xs) = xs
  | [] => rfl
  | x :: xs => by
    rw [JsValue.ofJsonList, serialElements, JsValue.serial_ofJson x,
      serialElements_ofJsonList xs]
theorem serialMembers_ofJsonMembers : ∀ kvs : List (String × Json),
    serialMembers (JsValue.ofJsonMembers kvs) = kvs
  | [] => rfl
  | (k, v) :: kvs => by
    rw [JsValue.ofJsonMembers, serialMembers, JsValue.serial_ofJson v,
      serialMembers_ofJsonMembers kvs]
end

/-- A parameter with the default `null` is never written as `undefined`. -/
theorem JsValue.orDefault_null_serial (v : JsValue) :
    ∃ j, (v.orDefault JsValue.null).serial = some j := by
  cases v <;> exact ⟨_, rfl⟩

/-- A parameter with the default `null` that is JSON data or is omitted is
written as that data, or as `null`. -/
theorem JsValue.ofOption_orDefault_serial (p : Option Json) :
    ((JsValue.ofOption p).orDefault JsValue.null).serial = some (p.getD Json.null) := by
  cases p with
  | none => rfl
  | some j =>
    have h := JsValue.serial_ofJson j
    simp only [JsValue.ofOption, Option.getD_some]
    cases j <;> exact h

/-- C6 as the claim words it fails: `createSchedule(undefined, null)` posts the
body `{"preferences":null}`, which has the key `preferences` alone: the key
`assignments` is left out. -/
theorem C6_undefined_assignments_left_out :
    fetches ((ASCAApiClient.new none).createSchedule (Network.answering workloadResponse)
        JsValue.undefined JsValue.null []).2 =
      [("http://localhost:8080/api/create-schedule",
        [("headers", Json.obj [("Content-Type", Json.str "application/json")]),
          ("method", Json.str "POST"),
          ("body", Json.str "\x7b\"preferences\":null\x7d")])] ∧
    Json.parse "\x7b\"preferences\":null\x7d" = some (Json.obj [("preferences", Json.null)]) ∧
    JsObject.keys [("preferences", Json.null)] ≠ ["assignments", "preferences"] ∧
    JsObject.get [("preferences", Json.null)] "assignments" = none := by
  refine ⟨?_, rfl, by decide, rfl⟩
  rw [ASCAApiClient.createSchedule, request_post_fetches]
  rfl

/-- C6 (amended): for every value `a`, `createSchedule(a, null)` and
`createSchedule(a)` make the same call of `fetch`, a POST to `baseUrl` followed by
`/api/create-schedule` whose body decodes to an object in which `preferences` is
present with the value `null`; and when the assignments are JSON data `j`, the
object has exactly the keys `assignments` and `preferences`, and `assignments`
is `j`. -/
theorem C6_createSchedule_sends_null_preferences (self : ASCAApiClient) (net : Network)
    (a : JsValue) (j : Json) (log : List Event) :
    (∃ (body : String) (decoded : JsObject),
      fetches (self.createSchedule net a JsValue.null log).2 =
        fetches log ++ [(self.baseUrl ++ "/api/create-schedule",
          [("headers", Json.obj [("Content-Type", Json.str "application/json")]),
            ("method", Json.str "POST"), ("body", Json.str body)])] ∧
      fetches (self.createSchedule net a JsValue.undefined log).2 =
        fetches log ++ [(self.baseUrl ++ "/api/create-schedule",
          [("headers", Json.obj [("Content-Type", Json.str "application/json")]),
            ("method", Json.str "POST"), ("body", Json.str body)])] ∧
      Json.parse body = some (Json.obj decoded) ∧
      JsObject.get decoded "preferences" = some Json.null) ∧
    (∃ (body : String) (decoded : JsObject),
      fetches (self.createSchedule net (JsValue.ofJson j) JsValue.null log).2 =
        fetches log ++ [(self.baseUrl ++ "/api/create-schedule",
          [("headers", Json.obj [("Content-Type", Json.str "application/json")]),
            ("method", Json.str "POST"), ("body", Json.str body)])] ∧
      fetches (self.createSchedule net (JsValue.ofJson j) JsValue.undefined log).2 =
        fetches log ++ [(self.baseUrl ++ "/api/create-schedule",
          [("headers", Json.obj [("Content-Type", Json.str "application/json")]),
            ("method", Json.str "POST"), ("body", Json.str body)])] ∧
      Json.parse body = some (Json.obj decoded) ∧
      JsObject.keys decoded = ["assignments", "preferences"] ∧
      JsObject.get decoded "assignments" = some j ∧
      JsObject.get decoded "preferences" = some Json.null) := by
  constructor
  · refine ⟨stringifyObject [("assignments", a), ("preferences", JsValue.null)],
      serialMembers [("assignments", a), ("preferences", JsValue.null)],
      request_post_fetches self net _ _ log, request_post_fetches self net _ _ log,
      Json.parse_stringify _, ?_⟩
    cases h : a.serial <;> simp [serialMembers, h, JsValue.serial, JsObject.get]
  · refine ⟨stringifyObject [("assignments", JsValue.ofJson j), ("preferences", JsValue.null)],
      [("assignments", j), ("preferences", Json.null)],
      request_post_fetches self net _ _ log, request_post_fetches self net _ _ log, ?_,
      rfl, rfl, rfl⟩
    have h : serialMembers [("assignments", JsValue.ofJson j), ("preferences", JsValue.null)] =
        [("assignments", j), ("preferences", Json.null)] := by
      simp [serialMembers, JsValue.serial_ofJson, JsValue.serial]
    rw [stringifyObject, h]
    exact Json.parse_stringify _


/-- C11 as the claim words it fails: `wellnessCheck(undefined)` posts the body
`{"preferences":null,"wellness_input":null}`, without the key `assignments`. -/
theorem C11_undefined_assignments_left_out :
    fetches ((ASCAApiClient.new none).wellnessCheck (Network.answering workloadResponse)
        JsValue.undefined JsValue.undefined JsValue.undefined []).2 =
      [("http://localhost:8080/api/wellness-check",
        [("headers", Json.obj [("Content-Type", Json.str "application/json")]),
          ("method", Json.str "POST"),
          ("body", Json.str "\x7b\"preferences\":null,\"wellness_input\":null\x7d")])] ∧
    Json.parse "\x7b\"preferences\":null,\"wellness_input\":null\x7d" =
      some (Json.obj [("preferences", Json.null), ("wellness_input", Json.null)]) ∧
    JsObject.keys [("preferences", Json.null), ("wellness_input", Json.null)] ≠
      ["assignments", "preferences", "wellness_input"] ∧
    JsObject.get [("preferences", Json.null), ("wellness_input", Json.null)] "assignments" =
      none := by
  refine ⟨?_, rfl, by decide, rfl⟩
  rw [ASCAApiClient.wellnessCheck, request_post_fetches]
  rfl

/-- C11 (amended): for all values `a`, `p` and `w`, `wellnessCheck(a, p, w)` and
`fullAnalysis(a, p, w)` call `fetch` with the same config, so the same method and
the same body, and with URLs that differ in the path alone, and in the decoded
body the keys `preferences` and `wellness_input` are present; and when `a` is
JSON data and each of `p` and `w` is JSON data or is omitted, the body decodes
to the object with exactly the keys `assignments`, `preferences` and
`wellness_input`, holding `a`, `p` and `w`, an omitted `p` or `w` as `null`. -/
theorem C11_wellnessCheck_fullAnalysis_same_body (self : ASCAApiClient) (net : Network)
    (a p w : JsValue) (ja : Json) (jp jw : Option Json) (log : List Event) :
    (∃ (body : String) (decoded : JsObject),
      fetches (self.wellnessCheck net a p w log).2 = 
        fetches log ++ [(self.baseUrl ++ "/api/wellness-check",
          [("headers", Json.obj [("Content-Type", Json.str "application/json")]),
            ("method", Json.str "POST"), ("body", Json.str body)])] ∧
      fetches (self.fullAnalysis net a p w log).2 = 
        fetches log ++ [(self.baseUrl ++ "/api/full-analysis",
          [("headers", Json.obj [("Content-Type", Json.str "application/json")]),
            ("method", Json.str "POST"), ("body", Json.str body)])] ∧
      Json.parse body = some (Json.obj decoded) ∧
      (∃ v, JsObject.get decoded "preferences" = some v) ∧
      (∃ v, JsObject.get decoded "wellness_input" = some v)) ∧
    (∃ (body : String) (decoded : JsObject),
      fetches (self.wellnessCheck net (JsValue.ofJson ja) (JsValue.ofOption jp)
        (JsValue.ofOption jw) log).2 = 
        fetches log ++ [(self.baseUrl ++ "/api/wellness-check",
          [("headers", Json.obj [("Content-Type", Json.str "application/json")]),
            ("method", Json.str "POST"), ("body", Json.str body)])] ∧
      fetches (self.fullAnalysis net (JsValue.ofJson ja) (JsValue.ofOption jp)
        (JsValue.ofOption jw) log).2 = 
        fetches log ++ [(self.baseUrl ++ "/api/full-analysis",
          [("headers", Json.obj [("Content-Type", Json.str "application/json")]),
            ("method", Json.str "POST"), ("body", Json.str body)])] ∧
      Json.parse body = some (Json.obj decoded) ∧
      JsObject.keys decoded = ["assignments", "preferences", "wellness_input"] ∧
      JsObject.get decoded "assignments" = some ja ∧
      JsObject.get decoded "preferences" = some (jp.getD Json.null) ∧
      JsObject.get decoded "wellness_input" = some (jw.getD Json.null)) := by
  constructor
  · obtain ⟨vp, hp⟩ := JsValue.orDefault_null_serial p
    obtain ⟨vw, hw⟩ := JsValue.orDefault_null_serial w
    refine ⟨stringifyObject [("assignments", a), ("preferences", p.orDefault JsValue.null),
        ("wellness_input", w.orDefault JsValue.null)],
      serialMembers [("assignments", a), ("preferences", p.orDefault JsValue.null),
        ("wellness_input", w.orDefault JsValue.null)],
      request_post_fetches self net _ _ log, request_post_fetches self net _ _ log,
      Json.parse_stringify _, ?_, ?_⟩
    · cases h : a.serial <;> simp [serialMembers, h, hp, hw, JsObject.get]
    · cases h : a.serial <;> simp [serialMembers, h, hp, hw, JsObject.get]
  · have h : serialMembers [("assignments", JsValue.ofJson ja),
          ("preferences", (JsValue.ofOption jp).orDefault JsValue.null),
          ("wellness_input", (JsValue.ofOption jw).orDefault JsValue.null)] =
        [("assignments", ja), ("preferences", jp.getD Json.null),
          ("wellness_input", jw.getD Json.null)] := by
      simp [serialMembers, JsValue.serial_ofJson, JsValue.ofOption_orDefault_serial]
    refine ⟨stringifyObject [("assignments", JsValue.ofJson ja),
        ("preferences", (JsValue.ofOption jp).orDefault JsValue.null),
        ("wellness_input", (JsValue.ofOption jw).orDefault JsValue.null)],
      [("assignments", ja), ("preferences", jp.getD Json.null),
        ("wellness_input", jw.getD Json.null)],
      request_post_fetches self net _ _ log, request_post_fetches self net _ _ log, ?_,
      rfl, rfl, rfl, rfl⟩
    rw [stringifyObject, h]
    exact Json.parse_stringify _

/-- C17 as the claim words it fails: `suggestBreak('study')`, with no second
argument, posts the body `{"current_activity":"study"}`, without the key
`time_worked`. -/
theorem C17_undefined_time_worked_left_out :
    fetches ((ASCAApiClient.new none).suggestBreak (Network.answering workloadResponse)
        (JsValue.str "study") JsValue.undefined []).2 =
      [("http://localhost:8080/api/suggest-break",
        [("headers", Json.obj [("Content-Type", Json.str "application/json")]),
          ("method", Json.str "POST"),
          ("body", Json.str "\x7b\"current_activity\":\"study\"\x7d")])] ∧
    Json.parse "\x7b\"current_activity\":\"study\"\x7d" =
      some (Json.obj [("current_activity", Json.str "study")]) ∧
    JsObject.keys [("current_activity", Json.str "study")] ≠
      ["current_activity", "time_worked"] ∧
    JsObject.get [("current_activity", Json.str "study")] "time_worked" = none := by
  refine ⟨?_, rfl, by decide, rfl⟩
  rw [ASCAApiClient.suggestBreak, request_post_fetches]
  rfl

/-- C17 (amended): for all values `c` and `t`, `suggestBreak(c, t)` posts a body
that decodes to an object without the camel-case keys `currentActivity` and
`timeWorked`; and when `c` and `t` are JSON data, the object has exactly the
keys `current_activity` and `time_worked`, holding `c` and `t`. -/
theorem C17_suggestBreak_snake_case_keys (self : ASCAApiClient) (net : Network)
    (c t : JsValue) (jc jt : Json) (log : List Event) :
    (∃ (body : String) (decoded : JsObject),
      fetches (self.suggestBreak net c t log).2 = 
        fetches log ++ [(self.baseUrl ++ "/api/suggest-break",
          [("headers", Json.obj [("Content-Type", Json.str "application/json")]),
            ("method", Json.str "POST"), ("body", Json.str body)])] ∧
      Json.parse body = some (Json.obj decoded) ∧
      JsObject.get decoded "currentActivity" = none ∧
      JsObject.get decoded "timeWorked" = none) ∧
    (∃ (body : String) (decoded : JsObject),
      fetches (self.suggestBreak net (JsValue.ofJson jc) (JsValue.ofJson jt) log).2 = 
        fetches log ++ [(self.baseUrl ++ "/api/suggest-break",
          [("headers", Json.obj [("Content-Type", Json.str "application/json")]),
            ("method", Json.str "POST"), ("body", Json.str body)])] ∧
      Json.parse body = some (Json.obj decoded) ∧
      JsObject.keys decoded = ["current_activity", "time_worked"] ∧
      JsObject.get decoded "current_activity" = some jc ∧
      JsObject.get decoded "time_worked" = some jt) := by
  constructor
  · refine ⟨stringifyObject [("current_activity", c), ("time_worked", t)],
      serialMembers [("current_activity", c), ("time_worked", t)],
      request_post_fetches self net _ _ log, Json.parse_stringify _, ?_, ?_⟩
    · cases hc : c.serial <;> cases ht : t.serial <;>
        simp [serialMembers, hc, ht, JsObject.get]
    · cases hc : c.serial <;> cases ht : t.serial <;>
        simp [serialMembers, hc, ht, JsObject.get]
  · have h : serialMembers [("current_activity", JsValue.ofJson jc),
          ("time_worked", JsValue.ofJson jt)] =
        [("current_activity", jc), ("time_worked", jt)] := by
      simp [serialMembers, JsValue.serial_ofJson]
    refine ⟨stringifyObject [("current_activity", JsValue.ofJson jc),
        ("time_worked", JsValue.ofJson jt)],
      [("current_activity", jc), ("time_worked", jt)],
      request_post_fetches self net _ _ log, ?_, rfl, rfl, rfl⟩
    rw [stringifyObject, h]
    exact Json.parse_stringify _


/-! ## The claim on the agent communications of the full analysis -/

/-- When the callback gives the text `f item` on every element of the array,
`map` and `join` give the texts one after the other in the order of the array. -/
theorem mapJoin_of_forall (callback : Json → Except JsError String) (f : Json → String)
    (items : List Json) (h : ∀ item ∈ items, callback item = Except.ok (f item)) :
    mapJoin callback items = Except.ok (String.join (items.map f)) := by
  induction items with
  | nil => rfl
  | cons x xs ih =>
    have hx := h x (List.mem_cons_self _ _)
    have hxs := ih (fun item hm => h item (List.mem_cons_of_mem _ hm))
    simp only [List.map_cons, mapJoin, hx, hxs, String.join_cons_eq]

/-- The entry of an element whose agent and message type convert to the texts
`f item` and `g item`. -/
theorem commEntry_of_texts (item : Json) (f g : Json → String)
    (ha : displayPath (some item) ["agent"] = Except.ok (f item))
    (hm : displayPath (some item) ["message_type"] = Except.ok (g item)) :
    commEntry item = Except.ok (
      "\n                        <div class=\"flex items-center space-x-2\">\n" ++
      "                            <span class=\"text-blue-500\">→</span>\n" ++
      "                            <span class=\"font-medium\">" ++
      f item ++
      "</span>\n                            <span class=\"text-gray-500\">" ++
      g item ++
      "</span>\n                        </div>\n                    ") := by
  simp only [commEntry, ha, hm, bind, Except.bind, pure, Except.pure]

/-- C18 as the claim words it fails on results that the function can receive: on
an answer that has a summary and no `agent_communications` the function throws
and opens no modal, and so it does on an answer whose array of communications
holds a `null` behind a proper element. -/
theorem C18_without_array_of_communications_throws :
    displayFullAnalysisResults (some (Json.obj answerWithoutCommunications)) emptyPage =
      (Except.error (typeError "Cannot read properties of undefined (reading 'map')"),
        emptyPage) ∧
    displayFullAnalysisResults
        (some (Json.obj (answerWithoutCommunications ++
          [("agent_communications", Json.arr
            [Json.obj [("agent", Json.str "Wellness Monitor"),
              ("message_type", Json.str "alert")], Json.null])]))) emptyPage =
      (Except.error (typeError "Cannot read properties of null (reading 'agent')"),
        emptyPage) := by
  exact ⟨rfl, rfl⟩

/-- C18 (amended): for every result whose `agent_communications` is an array,
the agent and the message type of each of whose elements convert to text, and
whose parts of the template outside the agent communications are built
without an error, `displayFullAnalysisResults` opens one modal whose content
holds, between those parts, one entry for each element of the array, in the
order of the array, each entry showing the element's agent and then its message
type. -/
theorem C18_agent_communications_in_array_order (result : JsObject) (items : List Json)
    (agentText typeText : Json → String) (head tail : String) (page : Page)
    (hc : JsObject.get result "agent_communications" = some (Json.arr items))
    (he : ∀ item ∈ items,
      displayPath (some item) ["agent"] = Except.ok (agentText item) ∧
      displayPath (some item) ["message_type"] = Except.ok (typeText item))
    (hh : fullAnalysisHead (some (Json.obj result)) = Except.ok head)
    (ht : fullAnalysisTail (some (Json.obj result)) = Except.ok tail) :
    displayFullAnalysisResults (some (Json.obj result)) page =
      (Except.ok (),
        appendModal (createModal "Complete Multi-Agent Analysis"
          (head ++ String.join (items.map (fun item =>
          "\n                        <div class=\"flex items-center space-x-2\">\n" ++
          "                            <span class=\"text-blue-500\">→</span>\n" ++
          "                            <span class=\"font-medium\">" ++
          agentText item ++
          "</span>\n                            <span class=\"text-gray-500\">" ++
          typeText item ++
          "</span>\n                        </div>\n                    ")) ++ tail)) page) := by
  have hm := mapJoin_of_forall commEntry _ items
    (fun item hi => commEntry_of_texts item agentText typeText (he item hi).1 (he item hi).2)
  have hg : agentCommunicationsMarkup (some (Json.obj result)) = Except.ok (String.join
      (items.map (fun item =>
          "\n                        <div class=\"flex items-center space-x-2\">\n" ++
          "                            <span class=\"text-blue-500\">→</span>\n" ++
          "                            <span class=\"font-medium\">" ++
          agentText item ++
          "</span>\n                            <span class=\"text-gray-500\">" ++
          typeText item ++
          "</span>\n                        </div>\n                    "))) := by
    simp only [agentCommunicationsMarkup, getProp, hc, mapReceiver, bind, Except.bind]
    exact hm
  simp only [displayFullAnalysisResults, fullAnalysisMarkup, hh, ht, hg, bind, Except.bind,
    pure, Except.pure]

/-- C18 at a concrete input: an answer with three communications, the first with
an extra field, the third with a number as agent and no message type. -/
theorem C18_agent_communications_in_array_order_witness :
    ∃ head tail : String,
      modals (displayFullAnalysisResults (some (Json.obj fullAnalysisAnswer)) emptyPage).2.ui =
        [createModal "Complete Multi-Agent Analysis"
          (head ++ String.join
            [("\n                        <div class=\"flex items-center space-x-2\">\n" ++
              "                            <span class=\"text-blue-500\">→</span>\n" ++
              "                            <span class=\"font-medium\">" ++
              "Wellness Monitor" ++
              "</span>\n                            <span class=\"text-gray-500\">" ++
              "alert" ++
              "</span>\n                        </div>\n                    "),
              ("\n                        <div class=\"flex items-center space-x-2\">\n" ++
              "                            <span class=\"text-blue-500\">→</span>\n" ++
              "                            <span class=\"font-medium\">" ++
              "Assignment Analyzer" ++
              "</span>\n                            <span class=\"text-gray-500\">" ++
              "report" ++
              "</span>\n                        </div>\n                    "),
              ("\n                        <div class=\"flex items-center space-x-2\">\n" ++
              "                            <span class=\"text-blue-500\">→</span>\n" ++
              "                            <span class=\"font-medium\">" ++
              "3" ++
              "</span>\n                            <span class=\"text-gray-500\">" ++
              "undefined" ++
              "</span>\n                        </div>\n                    ")] ++ tail)] := by
  obtain ⟨head, hh⟩ : ∃ head, fullAnalysisHead (some (Json.obj fullAnalysisAnswer)) =
      Except.ok head := ⟨_, rfl⟩
  obtain ⟨tail, ht⟩ : ∃ tail, fullAnalysisTail (some (Json.obj fullAnalysisAnswer)) =
      Except.ok tail := ⟨_, rfl⟩
  refine ⟨head, tail, ?_⟩
  rw [C18_agent_communications_in_array_order fullAnalysisAnswer
    [Json.obj [("agent", Json.str "Wellness Monitor"), ("message_type", Json.str "alert"),
        ("timestamp", Json.str "2025-11-10T09:00:00")],
      Json.obj [("agent", Json.str "Assignment Analyzer"), ("message_type", Json.str "report")],
      Json.obj [("agent", Json.num (JsNumber.ofString "3" rfl))]]
    (fun item => textOr (displayPath (some item) ["agent"]))
    (fun item => textOr (displayPath (some item) ["message_type"])) head tail emptyPage rfl
    (by
      intro item hi
      simp only [List.mem_cons, List.mem_singleton, List.not_mem_nil, or_false] at hi
      rcases hi with rfl | rfl | rfl <;> exact ⟨rfl, rfl⟩)
    hh ht]
  rfl

end ASCA
